import Mathlib

/-!
Shallow embedding of the SDL_gpu_shadercross core (SDL_shadercross.c /
SDL_gpu_shadercross.c) and proofs about its MSL resource remapper, its SPIR-V
reflection passes, its translation chains and its backend loader.

External collaborators (the SPIRV-Cross C API, DXC, D3DCompile, SDL's GPU
device) are modelled as opaque oracles; everything that the repository's own
code computes (resource-binding remaps, reflection counts, routing between
backends, loader state transitions) is translated directly from the C source.
-/

namespace SDLShaderCross

/-- A reflected shader resource as seen through the SPIRV-Cross reflection API:
`hasSet`/`hasBinding` model `spvc_compiler_has_decoration` for
`SpvDecorationDescriptorSet` / `SpvDecorationBinding`, and `set`/`binding`
model the corresponding `spvc_compiler_get_decoration` values. -/
structure Resource where
  id : Nat
  hasSet : Bool
  hasBinding : Bool
  set : Nat
  binding : Nat
  deriving Repr, DecidableEq

/-- A parsed SPIR-V module, reduced to what the core reads from SPIRV-Cross:
the per-type resource lists returned by
`spvc_resources_get_resource_list_for_type` and the three
`SpvExecutionModeLocalSize` arguments. -/
structure Module where
  sampledImages : List Resource
  separateSamplers : List Resource
  storageImages : List Resource
  storageBuffers : List Resource
  uniformBuffers : List Resource
  localSizeX : Nat
  localSizeY : Nat
  localSizeZ : Nat
  deriving Repr, DecidableEq

/-- The texture-sampler list every routine starts from: the SAMPLED_IMAGE list,
falling back to SEPARATE_SAMPLERS when it is empty ("If source is HLSL, we
might have separate images and samplers"). -/
def Module.textureSamplers (m : Module) : List Resource :=
  if m.sampledImages.isEmpty then m.separateSamplers else m.sampledImages

/-- `SDL_ShaderCross_ShaderStage`; doubles as the `SpvExecutionModel` stored in
`binding.stage` (compute is mapped to `SpvExecutionModelKernel`). -/
inductive ShaderStage
  | vertex
  | fragment
  | compute
  deriving Repr, DecidableEq

/-- The two SPIRV-Cross backends the core instantiates for transpilation. -/
inductive Backend
  | msl
  | hlsl
  deriving Repr, DecidableEq

/-- `spvc_msl_resource_binding`.  In the C code a single stack variable of this
type is reused across all remapping loops without being re-initialised, so
fields that a particular loop does not assign keep their previous (or
uninitialised) contents; the embedding threads the variable through the loops
to preserve that behaviour. -/
structure MSLResourceBinding where
  stage : ShaderStage
  descSet : Nat
  binding : Nat
  mslTexture : Nat
  mslSampler : Nat
  mslBuffer : Nat
  deriving Repr, DecidableEq

/-- An arbitrary value standing for one possible content of the uninitialised
`spvc_msl_resource_binding` stack variable. -/
def mslZero : MSLResourceBinding :=
  { stage := ShaderStage.vertex, descSet := 0, binding := 0,
    mslTexture := 0, mslSampler := 0, mslBuffer := 0 }

/-- Valid descriptor sets for graphics samplers/textures/storage buffers:
`descriptor_set_index == 0 || descriptor_set_index == 2`. -/
def set02 (s : Nat) : Bool := s == 0 || s == 2

/-- Valid descriptor sets for graphics uniform buffers:
`descriptor_set_index == 1 || descriptor_set_index == 3`. -/
def set13 (s : Nat) : Bool := s == 1 || s == 3

/-- One graphics-stage remapping loop of
`SDL_ShaderCross_INTERNAL_TranspileFromSPIRV` (the four loops share their
control flow literally and differ only in the set check and in which fields of
the reused `binding` variable they assign before
`spvc_compiler_msl_add_resource_binding`): fail when a resource lacks the
DescriptorSet or Binding decoration, fail when its set fails `setOK`, otherwise
update the reused `binding` variable with `upd` and emit its current value.
`spvc_compiler_msl_add_resource_binding` itself is treated as always
succeeding (its result is an external library status; three of the four loops
do not even store it). -/
def graphicsBindLoop (setOK : Nat → Bool)
    (upd : MSLResourceBinding → Resource → MSLResourceBinding) :
    MSLResourceBinding → List Resource →
    Option (MSLResourceBinding × List MSLResourceBinding)
  | cur, [] => some (cur, [])
  | cur, r :: rest =>
    if !r.hasSet || !r.hasBinding then none
    else if !(setOK r.set) then none
    else
      match graphicsBindLoop setOK upd (upd cur r) rest with
      | none => none
      | some (fin, out) => some (fin, upd cur r :: out)

/-- Body of the graphics texture-sampler loop:
`msl_texture = msl_sampler = binding_index`. -/
def gfxTexSamplerUpd (st : ShaderStage) (cur : MSLResourceBinding)
    (r : Resource) : MSLResourceBinding :=
  { cur with stage := st, descSet := r.set, binding := r.binding,
             mslTexture := r.binding, mslSampler := r.binding }

/-- Body of the graphics storage-texture loop:
`msl_texture = num_texture_samplers + binding_index`. -/
def gfxStorageTexUpd (st : ShaderStage) (nts : Nat) (cur : MSLResourceBinding)
    (r : Resource) : MSLResourceBinding :=
  { cur with stage := st, descSet := r.set, binding := r.binding,
             mslTexture := nts + r.binding }

/-- Body of the graphics storage-buffer loop: `msl_buffer = binding_index`. -/
def gfxStorageBufUpd (st : ShaderStage) (cur : MSLResourceBinding)
    (r : Resource) : MSLResourceBinding :=
  { cur with stage := st, descSet := r.set, binding := r.binding,
             mslBuffer := r.binding }

/-- Body of the graphics uniform-buffer loop:
`msl_buffer = num_storage_buffers + binding_index`. -/
def gfxUniformBufUpd (st : ShaderStage) (nsb : Nat) (cur : MSLResourceBinding)
    (r : Resource) : MSLResourceBinding :=
  { cur with stage := st, descSet := r.set, binding := r.binding,
             mslBuffer := nsb + r.binding }

/-- The vertex/fragment MSL resource remapping block of
`SDL_ShaderCross_INTERNAL_TranspileFromSPIRV` (the
`backend == SPVC_BACKEND_MSL && shaderStage != COMPUTE` branch): combined
texture-samplers, then storage textures, then storage buffers, then uniform
buffers.  Returns the bindings handed to
`spvc_compiler_msl_add_resource_binding`, in call order, or `none` when the
block makes the function return NULL. -/
def remapGraphicsMSL (st : ShaderStage) (m : Module)
    (uninit : MSLResourceBinding) : Option (List MSLResourceBinding) :=
  let ts := m.textureSamplers
  match graphicsBindLoop set02 (gfxTexSamplerUpd st) uninit ts with
  | none => none
  | some (c1, o1) =>
    match graphicsBindLoop set02 (gfxStorageTexUpd st ts.length) c1
        m.storageImages with
    | none => none
    | some (c2, o2) =>
      match graphicsBindLoop set02 (gfxStorageBufUpd st) c2 m.storageBuffers with
      | none => none
      | some (c3, o3) =>
        match graphicsBindLoop set13 (gfxUniformBufUpd st m.storageBuffers.length)
            c3 m.uniformBuffers with
        | none => none
        | some (_, o4) => some (o1 ++ o2 ++ o3 ++ o4)

/-- Compute texture-sampler loop: set must be 0,
`msl_texture = msl_sampler = num_textures`, then `num_textures += 1`. -/
def computeTexSamplerLoop (st : ShaderStage) :
    MSLResourceBinding → Nat → List Resource →
    Option (MSLResourceBinding × Nat × List MSLResourceBinding)
  | cur, nt, [] => some (cur, nt, [])
  | cur, nt, r :: rest =>
    if !r.hasSet || !r.hasBinding then none
    else if r.set != 0 then none
    else
      let cur' := { cur with stage := st, descSet := r.set, binding := r.binding,
                             mslTexture := nt, mslSampler := nt }
      match computeTexSamplerLoop st cur' (nt + 1) rest with
      | none => none
      | some (fin, ntFin, out) => some (fin, ntFin, cur' :: out)

/-- Compute readonly storage-texture loop: every storage texture must carry
both decorations and sit on set 0 or 1; readwrite ones (set 1) are skipped;
a readonly one gets `msl_texture = num_textures + binding_index` and bumps
`num_textures`. -/
def computeROTexLoop (st : ShaderStage) :
    MSLResourceBinding → Nat → List Resource →
    Option (MSLResourceBinding × Nat × List MSLResourceBinding)
  | cur, nt, [] => some (cur, nt, [])
  | cur, nt, r :: rest =>
    if !r.hasSet || !r.hasBinding then none
    else if !(r.set == 0 || r.set == 1) then none
    else if r.set != 0 then computeROTexLoop st cur nt rest
    else
      let cur' := { cur with stage := st, descSet := r.set, binding := r.binding,
                             mslTexture := nt + r.binding }
      match computeROTexLoop st cur' (nt + 1) rest with
      | none => none
      | some (fin, ntFin, out) => some (fin, ntFin, cur' :: out)

/-- Compute readwrite storage-texture loop: no decoration or range checks
(the readonly pass already validated the same list); readonly ones (set ≠ 1)
are skipped; a readwrite one gets `msl_texture = num_textures + binding_index`
and bumps `num_textures`.  This loop has no failure exit. -/
def computeRWTexLoop (st : ShaderStage) :
    MSLResourceBinding → Nat → List Resource →
    MSLResourceBinding × Nat × List MSLResourceBinding
  | cur, nt, [] => (cur, nt, [])
  | cur, nt, r :: rest =>
    if r.set != 1 then computeRWTexLoop st cur nt rest
    else
      let cur' := { cur with stage := st, descSet := r.set, binding := r.binding,
                             mslTexture := nt + r.binding }
      let (fin, ntFin, out) := computeRWTexLoop st cur' (nt + 1) rest
      (fin, ntFin, cur' :: out)

/-- Compute readonly storage-buffer loop: every storage buffer must carry both
decorations and sit on set 0 or 1; readwrite ones (set 1) are skipped; a
readonly one gets `msl_buffer = binding_index` and bumps `num_buffers`. -/
def computeROBufLoop (st : ShaderStage) :
    MSLResourceBinding → Nat → List Resource →
    Option (MSLResourceBinding × Nat × List MSLResourceBinding)
  | cur, nb, [] => some (cur, nb, [])
  | cur, nb, r :: rest =>
    if !r.hasSet || !r.hasBinding then none
    else if !(r.set == 0 || r.set == 1) then none
    else if r.set != 0 then computeROBufLoop st cur nb rest
    else
      let cur' := { cur with stage := st, descSet := r.set, binding := r.binding,
                             mslBuffer := r.binding }
      match computeROBufLoop st cur' (nb + 1) rest with
      | none => none
      | some (fin, nbFin, out) => some (fin, nbFin, cur' :: out)

/-- Compute readwrite storage-buffer loop: no checks (the readonly pass
validated the list); readonly ones (set ≠ 1) are skipped; a readwrite one gets
`msl_buffer = num_buffers + binding_index` and bumps `num_buffers`. -/
def computeRWBufLoop (st : ShaderStage) :
    MSLResourceBinding → Nat → List Resource →
    MSLResourceBinding × Nat × List MSLResourceBinding
  | cur, nb, [] => (cur, nb, [])
  | cur, nb, r :: rest =>
    if r.set != 1 then computeRWBufLoop st cur nb rest
    else
      let cur' := { cur with stage := st, descSet := r.set, binding := r.binding,
                             mslBuffer := nb + r.binding }
      let (fin, nbFin, out) := computeRWBufLoop st cur' (nb + 1) rest
      (fin, nbFin, cur' :: out)

/-- Compute uniform-buffer loop: both decorations required, set must be 2,
`msl_buffer = num_buffers + binding_index`, then `num_buffers += 1`. -/
def computeUniformBufLoop (st : ShaderStage) :
    MSLResourceBinding → Nat → List Resource →
    Option (MSLResourceBinding × Nat × List MSLResourceBinding)
  | cur, nb, [] => some (cur, nb, [])
  | cur, nb, r :: rest =>
    if !r.hasSet || !r.hasBinding then none
    else if r.set != 2 then none
    else
      let cur' := { cur with stage := st, descSet := r.set, binding := r.binding,
                             mslBuffer := nb + r.binding }
      match computeUniformBufLoop st cur' (nb + 1) rest with
      | none => none
      | some (fin, nbFin, out) => some (fin, nbFin, cur' :: out)

/-- The compute MSL resource remapping block of
`SDL_ShaderCross_INTERNAL_TranspileFromSPIRV` (the
`backend == SPVC_BACKEND_MSL && shaderStage == COMPUTE` branch), with
`num_textures` and `num_buffers` both starting at 0: texture-samplers, readonly
storage textures, readwrite storage textures, readonly storage buffers,
readwrite storage buffers, uniform buffers, in that order.  Returns the
bindings handed to `spvc_compiler_msl_add_resource_binding`, in call order. -/
def remapComputeMSL (st : ShaderStage) (m : Module)
    (uninit : MSLResourceBinding) : Option (List MSLResourceBinding) :=
  match computeTexSamplerLoop st uninit 0 m.textureSamplers with
  | none => none
  | some (c1, nt1, o1) =>
    match computeROTexLoop st c1 nt1 m.storageImages with
    | none => none
    | some (c2, nt2, o2) =>
      let (c3, _, o3) := computeRWTexLoop st c2 nt2 m.storageImages
      match computeROBufLoop st c3 0 m.storageBuffers with
      | none => none
      | some (c4, nb1, o4) =>
        let (c5, nb2, o5) := computeRWBufLoop st c4 nb1 m.storageBuffers
        match computeUniformBufLoop st c5 nb2 m.uniformBuffers with
        | none => none
        | some (_, _, o6) => some (o1 ++ o2 ++ o3 ++ o4 ++ o5 ++ o6)

/-- `SDL_GPUShaderCreateInfo` counts filled in by graphics reflection. -/
structure GraphicsMetadata where
  numSamplers : Nat
  numStorageTextures : Nat
  numStorageBuffers : Nat
  numUniformBuffers : Nat
  deriving Repr, DecidableEq

/-- `SDL_GPUComputePipelineCreateInfo` fields filled in by compute
reflection. -/
structure ComputeMetadata where
  numSamplers : Nat
  numReadonlyStorageTextures : Nat
  numReadonlyStorageBuffers : Nat
  numReadwriteStorageTextures : Nat
  numReadwriteStorageBuffers : Nat
  numUniformBuffers : Nat
  threadcountX : Nat
  threadcountY : Nat
  threadcountZ : Nat
  deriving Repr, DecidableEq

/-- `SDL_ShaderCross_INTERNAL_ReflectGraphicsSPIRV` after a successful parse:
it only queries the four resource-list lengths and copies them into the create
info.  It checks no decorations and no descriptor sets (the source carries a
`TODO: validate descriptor sets` comment); its only failure exits are external
SPIRV-Cross context/parse errors, which are outside this post-parse model, so
it is total here. -/
def reflectGraphicsSPIRV (m : Module) : GraphicsMetadata :=
  { numSamplers := m.textureSamplers.length,
    numStorageTextures := m.storageImages.length,
    numStorageBuffers := m.storageBuffers.length,
    numUniformBuffers := m.uniformBuffers.length }

/-- The storage-image loop of
`SDL_ShaderCross_INTERNAL_ReflectComputeSPIRV`: both decorations required,
set 0 counts as readonly, set 1 as readwrite, anything else fails. -/
def classifyStorageImages : Nat → Nat → List Resource → Option (Nat × Nat)
  | ro, rw, [] => some (ro, rw)
  | ro, rw, r :: rest =>
    if !r.hasSet || !r.hasBinding then none
    else if r.set == 0 then classifyStorageImages (ro + 1) rw rest
    else if r.set == 1 then classifyStorageImages ro (rw + 1) rest
    else none

/-- The storage-buffer loop of
`SDL_ShaderCross_INTERNAL_ReflectComputeSPIRV`: both decorations required,
then an explicit `set == 0 || set == 1` guard, then set 0 counts as readonly
and set 1 as readwrite (the final `else` arm of the C code is unreachable
behind the guard). -/
def classifyStorageBuffers : Nat → Nat → List Resource → Option (Nat × Nat)
  | ro, rw, [] => some (ro, rw)
  | ro, rw, r :: rest =>
    if !r.hasSet || !r.hasBinding then none
    else if !(r.set == 0 || r.set == 1) then none
    else if r.set == 0 then classifyStorageBuffers (ro + 1) rw rest
    else if r.set == 1 then classifyStorageBuffers ro (rw + 1) rest
    else none

/-- `SDL_ShaderCross_INTERNAL_ReflectComputeSPIRV` after a successful parse:
texture-samplers and uniform buffers are only counted, storage images and
storage buffers are classified by descriptor set, and the three threadcounts
are the `SpvExecutionModeLocalSize` arguments. -/
def reflectComputeSPIRV (m : Module) : Option ComputeMetadata :=
  match classifyStorageImages 0 0 m.storageImages with
  | none => none
  | some (roT, rwT) =>
    match classifyStorageBuffers 0 0 m.storageBuffers with
    | none => none
    | some (roB, rwB) =>
      some { numSamplers := m.textureSamplers.length,
             numReadonlyStorageTextures := roT,
             numReadonlyStorageBuffers := roB,
             numReadwriteStorageTextures := rwT,
             numReadwriteStorageBuffers := rwB,
             numUniformBuffers := m.uniformBuffers.length,
             threadcountX := m.localSizeX,
             threadcountY := m.localSizeY,
             threadcountZ := m.localSizeZ }

/-- `SDL_GPUShaderFormat` bits the two loaders report. -/
inductive ShaderFormat
  | spirv
  | dxbc
  | dxil
  | msl
  deriving Repr, DecidableEq

/-- Which native libraries and symbols the host can actually provide; each
field says whether the corresponding `SDL_LoadObject` / `SDL_LoadFunction`
call would succeed. -/
structure LoaderEnv where
  d3dLib : Bool
  d3dFunc : Bool
  dxcLib : Bool
  dxcFunc : Bool
  dxilLib : Bool
  spvcLib : Bool
  spvcFuncs : Bool
  deriving Repr, DecidableEq

/-- Loader state of the newer source file (SDL_shadercross.c): the
`d3dcompiler_dll` handle and `SDL_D3DCompile` pointer, plus the Xbox-only
`dxcompiler_dll` handle and `SDL_DxcCreateInstance` pointer.  `true` means
non-NULL. -/
structure LoaderStateV1 where
  d3dcompiler_dll : Bool
  d3dCompilePtr : Bool
  dxcompiler_dll : Bool
  dxcCreateInstancePtr : Bool
  deriving Repr, DecidableEq

/-- All-NULL loader state of the newer file (state before the first Init). -/
def resetV1 : LoaderStateV1 :=
  { d3dcompiler_dll := false, d3dCompilePtr := false,
    dxcompiler_dll := false, dxcCreateInstancePtr := false }

/-- `SDL_ShaderCross_Init` of the newer file.  `xbox` is the
`SDL_PLATFORM_XBOXONE || SDL_PLATFORM_XBOXSERIES` preprocessor condition.
When a library loads but its symbol does not resolve, the C code unloads the
library and resets the handle, so the net effect of each block is the
conjunction of both load steps. -/
def initV1 (xbox : Bool) (env : LoaderEnv) (s : LoaderStateV1) : LoaderStateV1 :=
  let s1 :=
    if xbox then
      if env.dxcLib && env.dxcFunc then
        { s with dxcompiler_dll := true, dxcCreateInstancePtr := true }
      else s
    else s
  if env.d3dLib && env.d3dFunc then
    { s1 with d3dcompiler_dll := true, d3dCompilePtr := true }
  else s1

/-- `SDL_ShaderCross_Quit` of the newer file: unload and reset the d3dcompiler
state when its handle is non-NULL; on Xbox builds do the same for the
dxcompiler state. -/
def quitV1 (xbox : Bool) (s : LoaderStateV1) : LoaderStateV1 :=
  let s1 :=
    if s.d3dcompiler_dll then
      { s with d3dcompiler_dll := false, d3dCompilePtr := false }
    else s
  if xbox then
    if s1.dxcompiler_dll then
      { s1 with dxcompiler_dll := false, dxcCreateInstancePtr := false }
    else s1
  else s1

/-- `SDL_ShaderCross_GetSPIRVShaderFormats` of the newer file, as the
characteristic function of its bitmask: SPIRV and MSL always, DXIL
unconditionally, DXBC iff `d3dcompiler_dll` is non-NULL. -/
def getSPIRVShaderFormatsV1 (s : LoaderStateV1) : ShaderFormat → Bool
  | ShaderFormat.spirv => true
  | ShaderFormat.msl => true
  | ShaderFormat.dxil => true
  | ShaderFormat.dxbc => s.d3dcompiler_dll

/-- Loader state of the older source file (SDL_gpu_shadercross.c):
`dxcompiler_dll`, `d3dcompiler_dll` and `spirvcross_dll` handles, the
`SDL_DxcCreateInstance` and `SDL_D3DCompile` pointers, and the eleven
`SDL_spvc_*` function pointers (loaded and reset together, modelled as one
flag). -/
structure LoaderStateV2 where
  dxcompiler_dll : Bool
  d3dcompiler_dll : Bool
  spirvcross_dll : Bool
  dxcCreateInstancePtr : Bool
  d3dCompilePtr : Bool
  spvcFuncPtrs : Bool
  deriving Repr, DecidableEq

/-- All-NULL loader state of the older file. -/
def resetV2 : LoaderStateV2 :=
  { dxcompiler_dll := false, d3dcompiler_dll := false, spirvcross_dll := false,
    dxcCreateInstancePtr := false, d3dCompilePtr := false,
    spvcFuncPtrs := false }

/-- Build configuration of the older file: `SDL_GPU_SHADERCROSS_STATIC` and
`_GAMING_XBOX`.  (`SDL_GPU_SHADERCROSS_SPIRVCROSS` and
`SDL_GPU_SHADERCROSS_HLSL` default to 1 in its header and are taken as
enabled.) -/
structure ConfigV2 where
  staticBuild : Bool
  gamingXbox : Bool
  deriving Repr, DecidableEq

/-- Truth value of `#ifdef SDL_GPU_SHADERCROSS_SPIRV`, the guard around the
SPIRV-Cross teardown block in the older file's `SDL_ShaderCross_Quit`.  That
macro is defined nowhere in the repository — every other conditional in the
file tests `SDL_GPU_SHADERCROSS_SPIRVCROSS` — so the guard is always false and
the teardown block is dead code. -/
def spirvQuitGuard : Bool := false

/-- `SDL_ShaderCross_Init` of the older file: load dxcompiler (on non-Xbox
hosts additionally require that the DXIL-signing library is present, probing
and immediately unloading it, else unload dxcompiler), resolve
`DxcCreateInstance`; load d3dcompiler and resolve `D3DCompile`; in non-static
builds load the SPIRV-Cross shared library and resolve the eleven `spvc`
symbols, unloading it when any resolution fails. -/
def initV2 (cfg : ConfigV2) (env : LoaderEnv) (s : LoaderStateV2) :
    LoaderStateV2 :=
  let dxcOK := env.dxcLib && (cfg.gamingXbox || env.dxilLib) && env.dxcFunc
  let s1 := if dxcOK then
      { s with dxcompiler_dll := true, dxcCreateInstancePtr := true }
    else s
  let s2 := if env.d3dLib && env.d3dFunc then
      { s1 with d3dcompiler_dll := true, d3dCompilePtr := true }
    else s1
  if !cfg.staticBuild then
    if env.spvcLib && env.spvcFuncs then
      { s2 with spirvcross_dll := true, spvcFuncPtrs := true }
    else s2
  else s2

/-- `SDL_ShaderCross_Quit` of the older file.  The SPIRV-Cross teardown is
guarded by `#ifdef SDL_GPU_SHADERCROSS_SPIRV` (see `spirvQuitGuard`); the HLSL
section resets the d3dcompiler and dxcompiler state for non-NULL handles. -/
def quitV2 (cfg : ConfigV2) (s : LoaderStateV2) : LoaderStateV2 :=
  let s1 :=
    if spirvQuitGuard && !cfg.staticBuild then
      if s.spirvcross_dll then
        { s with spirvcross_dll := false, spvcFuncPtrs := false }
      else s
    else s
  let s2 :=
    if s1.d3dcompiler_dll then
      { s1 with d3dcompiler_dll := false, d3dCompilePtr := false }
    else s1
  if s2.dxcompiler_dll then
    { s2 with dxcompiler_dll := false, dxcCreateInstancePtr := false }
  else s2

/-- `SDL_ShaderCross_GetSPIRVShaderFormats` of the older file: SPIRV always;
when SPIRV-Cross is available (statically linked, or its shared library
loaded) also MSL, plus DXIL iff dxcompiler loaded and DXBC iff d3dcompiler
loaded. -/
def getSPIRVShaderFormatsV2 (cfg : ConfigV2) (s : LoaderStateV2) :
    ShaderFormat → Bool
  | ShaderFormat.spirv => true
  | ShaderFormat.msl => cfg.staticBuild || s.spirvcross_dll
  | ShaderFormat.dxil => (cfg.staticBuild || s.spirvcross_dll) && s.dxcompiler_dll
  | ShaderFormat.dxbc => (cfg.staticBuild || s.spirvcross_dll) && s.d3dcompiler_dll

/-- A raw byte buffer (SPIR-V bytecode or compiled blob). -/
abbrev Bytes := List Nat

/-- Result of a C function returning an owned pointer: `ok` for a non-NULL
result, `fail` for a NULL return after a handled error, and `crash` when the
control flow reaches a dereference of a NULL pointer (undefined behaviour). -/
inductive Out (α : Type)
  | ok (val : α)
  | fail
  | crash
  deriving Repr, DecidableEq

/-- One invocation of an in-repository backend-driver function.  `dxcCall`
marks entry into `SDL_ShaderCross_INTERNAL_CompileUsingDXC`, `fxcCall` entry
into `SDL_ShaderCross_INTERNAL_CompileDXBC`, and `spvcCall` entry into
`SDL_ShaderCross_INTERNAL_TranspileFromSPIRV`, each with the arguments it
received. -/
inductive Event
  | dxcCall (source entry : String) (stage : ShaderStage) (toSpirv : Bool)
  | fxcCall (source entry profile : String)
  | spvcCall (backend : Backend) (shadermodel : Nat) (stage : ShaderStage)
      (code : Bytes) (entry : String)
  deriving Repr, DecidableEq

/-- The entrypoint-name argument carried by an event. -/
def Event.entryArg : Event → String
  | Event.dxcCall _ e _ _ => e
  | Event.fxcCall _ e _ => e
  | Event.spvcCall _ _ _ _ e => e

/-- Whether the event is a downstream backend compilation (DXC or the legacy
compiler) rather than the SPIRV-Cross transpiler itself. -/
def Event.isDownstreamCompile : Event → Bool
  | Event.dxcCall _ _ _ _ => true
  | Event.fxcCall _ _ _ => true
  | Event.spvcCall _ _ _ _ _ => false

/-- Whether the event is an invocation of DXC. -/
def Event.isDxc : Event → Bool
  | Event.dxcCall _ _ _ _ => true
  | _ => false

/-- Whether the event is an invocation of the legacy compiler. -/
def Event.isFxc : Event → Bool
  | Event.fxcCall _ _ _ => true
  | _ => false

/-- Behaviour of the external collaborators, all opaque to the repository:
SPIRV-Cross parsing (`spvc_context_parse_spirv`), its compile output
(`spvc_compiler_compile`), its entrypoint cleansing
(`spvc_compiler_get_cleansed_entry_point_name`), the contents of the
uninitialised `spvc_msl_resource_binding` stack variable, DXC compilation and
`D3DCompile`.  `none` stands for a negative status / NULL blob. -/
structure Ext where
  parse : Bytes → Option Module
  compileOut : Backend → Nat → ShaderStage → Module → Option String
  cleanse : Backend → ShaderStage → String → String
  uninit : MSLResourceBinding
  dxcCompile : String → String → ShaderStage → Bool → Option Bytes
  fxcCompile : String → String → String → Option Bytes

/-- The two fields of `SPIRVTranspileContext` read by callers. -/
structure SPIRVTranspileContext where
  translated_source : String
  cleansed_entrypoint : String
  deriving Repr, DecidableEq

/-- `SDL_ShaderCross_INTERNAL_TranspileFromSPIRV`: parse the SPIR-V (NULL on
failure), run the stage-appropriate MSL remapping block when the backend is
MSL (NULL when it rejects the module), compile (NULL on external failure), and
package the translated source with the cleansed entrypoint.  The trace records
this invocation. -/
def internalTranspileFromSPIRV (o : Ext) (backend : Backend) (shadermodel : Nat)
    (stage : ShaderStage) (code : Bytes) (entrypoint : String) :
    Out SPIRVTranspileContext × List Event :=
  (match o.parse code with
   | none => Out.fail
   | some m =>
     let remapped : Option Unit :=
       if backend == Backend.msl then
         if stage == ShaderStage.compute then
           (remapComputeMSL stage m o.uninit).map (fun _ => ())
         else
           (remapGraphicsMSL stage m o.uninit).map (fun _ => ())
       else some ()
     match remapped with
     | none => Out.fail
     | some _ =>
       match o.compileOut backend shadermodel stage m with
       | none => Out.fail
       | some src =>
         Out.ok { translated_source := src,
                  cleansed_entrypoint := o.cleanse backend stage entrypoint },
   [Event.spvcCall backend shadermodel stage code entrypoint])

/-- `SDL_ShaderCross_TranspileMSLFromSPIRV`: transpile with the MSL backend,
then unconditionally read `context->translated_source`.  When the transpile
returned NULL the read dereferences a NULL pointer. -/
def transpileMSLFromSPIRV (o : Ext) (code : Bytes) (entrypoint : String)
    (stage : ShaderStage) : Out String × List Event :=
  match internalTranspileFromSPIRV o Backend.msl 0 stage code entrypoint with
  | (Out.ok ctx, tr) => (Out.ok ctx.translated_source, tr)
  | (Out.fail, tr) => (Out.crash, tr)
  | (Out.crash, tr) => (Out.crash, tr)

/-- `SDL_ShaderCross_TranspileHLSLFromSPIRV`: transpile with the HLSL backend
at shader model 60, then unconditionally read `context->translated_source`
(same NULL-dereference pattern as the MSL wrapper). -/
def transpileHLSLFromSPIRV (o : Ext) (code : Bytes) (entrypoint : String)
    (stage : ShaderStage) : Out String × List Event :=
  match internalTranspileFromSPIRV o Backend.hlsl 60 stage code entrypoint with
  | (Out.ok ctx, tr) => (Out.ok ctx.translated_source, tr)
  | (Out.fail, tr) => (Out.crash, tr)
  | (Out.crash, tr) => (Out.crash, tr)

/-- `SDL_ShaderCross_INTERNAL_CompileUsingDXC`: build the argument list
(including `-E entrypoint` and optionally `-spirv`) and invoke DXC. -/
def internalCompileUsingDXC (o : Ext) (source entrypoint : String)
    (stage : ShaderStage) (toSpirv : Bool) : Out Bytes × List Event :=
  (match o.dxcCompile source entrypoint stage toSpirv with
   | none => Out.fail
   | some blob => Out.ok blob,
   [Event.dxcCall source entrypoint stage toSpirv])

/-- `SDL_ShaderCross_CompileSPIRVFromHLSL`: DXC with the `-spirv` flag. -/
def compileSPIRVFromHLSL (o : Ext) (source entrypoint : String)
    (stage : ShaderStage) : Out Bytes × List Event :=
  internalCompileUsingDXC o source entrypoint stage true

/-- `SDL_ShaderCross_INTERNAL_CompileDXBC`: invoke `D3DCompile` with the given
profile.  (The `SDL_D3DCompile == NULL` early exit is folded into the oracle
returning `none`.) -/
def internalCompileDXBC (o : Ext) (source entrypoint profile : String) :
    Out Bytes × List Event :=
  (match o.fxcCompile source entrypoint profile with
   | none => Out.fail
   | some blob => Out.ok blob,
   [Event.fxcCall source entrypoint profile])

/-- The `{vs,ps,cs}_5_1` profile string chosen by
`SDL_ShaderCross_INTERNAL_CompileDXBCFromHLSL`. -/
def profileFor (stage : ShaderStage) : String :=
  match stage with
  | ShaderStage.vertex => "vs_5_1"
  | ShaderStage.fragment => "ps_5_1"
  | ShaderStage.compute => "cs_5_1"

/-- `SDL_ShaderCross_INTERNAL_CompileDXBCFromHLSL`: when `enableRoundtrip`,
first compile the HLSL to SPIR-V with DXC and transpile it back to HLSL (note
that both calls receive the caller's `entrypoint`), then invoke the legacy
compiler on the transpiled source (round-trip) or on the caller's source
directly — again with the caller's `entrypoint`. -/
def internalCompileDXBCFromHLSL (o : Ext) (source entrypoint : String)
    (stage : ShaderStage) (enableRoundtrip : Bool) : Out Bytes × List Event :=
  if enableRoundtrip then
    match compileSPIRVFromHLSL o source entrypoint stage with
    | (Out.ok spirv, t1) =>
      match transpileHLSLFromSPIRV o spirv entrypoint stage with
      | (Out.ok transpiled, t2) =>
        let (r, t3) := internalCompileDXBC o transpiled entrypoint
          (profileFor stage)
        (r, t1 ++ t2 ++ t3)
      | (Out.fail, t2) => (Out.fail, t1 ++ t2)
      | (Out.crash, t2) => (Out.crash, t1 ++ t2)
    | (Out.fail, t1) => (Out.fail, t1)
    | (Out.crash, t1) => (Out.crash, t1)
  else
    internalCompileDXBC o source entrypoint (profileFor stage)

/-- `SDL_ShaderCross_CompileDXBCFromHLSL`: the public entry always enables the
round-trip. -/
def compileDXBCFromHLSL (o : Ext) (source entrypoint : String)
    (stage : ShaderStage) : Out Bytes × List Event :=
  internalCompileDXBCFromHLSL o source entrypoint stage true

/-- `SDL_ShaderCross_CompileDXILFromHLSL`: round-trip to SPIR-V, transpile
back to HLSL, then compile with DXC — passing the caller's `entrypoint` to
every stage (the cleansed entrypoint of the transpile is discarded by
`TranspileHLSLFromSPIRV`). -/
def compileDXILFromHLSL (o : Ext) (source entrypoint : String)
    (stage : ShaderStage) : Out Bytes × List Event :=
  match compileSPIRVFromHLSL o source entrypoint stage with
  | (Out.ok spirv, t1) =>
    match transpileHLSLFromSPIRV o spirv entrypoint stage with
    | (Out.ok transpiled, t2) =>
      let (r, t3) := internalCompileUsingDXC o transpiled entrypoint stage false
      (r, t1 ++ t2 ++ t3)
    | (Out.fail, t2) => (Out.fail, t1 ++ t2)
    | (Out.crash, t2) => (Out.crash, t1 ++ t2)
  | (Out.fail, t1) => (Out.fail, t1)
  | (Out.crash, t1) => (Out.crash, t1)

/-- `SDL_ShaderCross_CompileDXBCFromSPIRV`: transpile to HLSL at shader model
51, then hand the translated source and the cleansed entrypoint to the legacy
path with the round-trip disabled.  The transpile context is dereferenced
without a NULL check. -/
def compileDXBCFromSPIRV (o : Ext) (code : Bytes) (entrypoint : String)
    (stage : ShaderStage) : Out Bytes × List Event :=
  match internalTranspileFromSPIRV o Backend.hlsl 51 stage code entrypoint with
  | (Out.ok ctx, t1) =>
    let (r, t2) := internalCompileDXBCFromHLSL o ctx.translated_source
      ctx.cleansed_entrypoint stage false
    (r, t1 ++ t2)
  | (Out.fail, t1) => (Out.crash, t1)
  | (Out.crash, t1) => (Out.crash, t1)

/-- `SDL_ShaderCross_CompileDXILFromSPIRV`: transpile to HLSL at shader model
60, then hand the translated source and the cleansed entrypoint to
`CompileDXILFromHLSL`.  The transpile context is dereferenced without a NULL
check. -/
def compileDXILFromSPIRV (o : Ext) (code : Bytes) (entrypoint : String)
    (stage : ShaderStage) : Out Bytes × List Event :=
  match internalTranspileFromSPIRV o Backend.hlsl 60 stage code entrypoint with
  | (Out.ok ctx, t1) =>
    let (r, t2) := compileDXILFromHLSL o ctx.translated_source
      ctx.cleansed_entrypoint stage
    (r, t1 ++ t2)
  | (Out.fail, t1) => (Out.crash, t1)
  | (Out.crash, t1) => (Out.crash, t1)

/-- What `SDL_ShaderCross_INTERNAL_CompileFromSPIRV` stores in
`createInfo.code`: a compiled blob, the translated MSL text itself, or a NULL
pointer when the downstream compile failed (the C code stores it and pushes on
to the device call). -/
inductive CreateInfoCode
  | blob (b : Bytes)
  | text (s : String)
  | nullPtr
  deriving Repr, DecidableEq

/-- The (entrypoint, code) pair stored into the create info by
`SDL_ShaderCross_INTERNAL_CompileFromSPIRV`. -/
structure CreateInfoBits where
  entrypoint : String
  code : CreateInfoCode
  deriving Repr, DecidableEq

/-- The runtime shader-construction path
`SDL_ShaderCross_INTERNAL_CompileFromSPIRV`, up to (and excluding) the
`SDL_CreateGPUShader` / `SDL_CreateGPUComputePipeline` device call and the
reflection metadata, neither of which affects the threading of code and
entrypoint: choose backend and shader model from the target format, transpile,
store the cleansed entrypoint in the create info, and for DXBC/DXIL targets
compile the translated source further with the cleansed entrypoint.  The
transpile context is dereferenced without a NULL check. -/
def internalCompileFromSPIRV (o : Ext) (code : Bytes) (entrypoint : String)
    (stage : ShaderStage) (targetFormat : ShaderFormat) :
    Out CreateInfoBits × List Event :=
  match targetFormat with
  | ShaderFormat.spirv => (Out.fail, [])
  | target =>
    let backend := if target == ShaderFormat.msl then Backend.msl else Backend.hlsl
    let shadermodel : Nat :=
      if target == ShaderFormat.dxbc then 51
      else if target == ShaderFormat.dxil then 60 else 0
    match internalTranspileFromSPIRV o backend shadermodel stage code entrypoint with
    | (Out.ok ctx, t1) =>
      match target with
      | ShaderFormat.dxbc =>
        let (r, t2) := internalCompileDXBCFromHLSL o ctx.translated_source
          ctx.cleansed_entrypoint stage false
        (Out.ok { entrypoint := ctx.cleansed_entrypoint,
                  code := match r with
                          | Out.ok b => CreateInfoCode.blob b
                          | _ => CreateInfoCode.nullPtr },
         t1 ++ t2)
      | ShaderFormat.dxil =>
        let (r, t2) := compileDXILFromHLSL o ctx.translated_source
          ctx.cleansed_entrypoint stage
        (Out.ok { entrypoint := ctx.cleansed_entrypoint,
                  code := match r with
                          | Out.ok b => CreateInfoCode.blob b
                          | _ => CreateInfoCode.nullPtr },
         t1 ++ t2)
      | _ =>
        (Out.ok { entrypoint := ctx.cleansed_entrypoint,
                  code := CreateInfoCode.text ctx.translated_source }, t1)
    | (Out.fail, t1) => (Out.crash, t1)
    | (Out.crash, t1) => (Out.crash, t1)

/-- Claim-side counter ("each texture-sampler gets `msl_texture = msl_sampler
= T` and `T` increments"): the `n` successive values `t, t+1, …`. -/
def ctrIndices (t : Nat) : Nat → List Nat
  | 0 => []
  | n + 1 => t :: ctrIndices (t + 1) n

/-- Claim-side counter ("`msl_texture = T + binding`; `T` increments per
resource"): `t + binding` for each listed resource, bumping `t` each time. -/
def ctrPlusBinding (t : Nat) : List Resource → List Nat
  | [] => []
  | r :: rest => (t + r.binding) :: ctrPlusBinding (t + 1) rest

/-- A module with no resources at all. -/
def emptyModule : Module :=
  { sampledImages := [], separateSamplers := [], storageImages := [],
    storageBuffers := [], uniformBuffers := [],
    localSizeX := 0, localSizeY := 0, localSizeZ := 0 }

/-- Witness module for the graphics remap: one texture-sampler at (0,0), one
storage texture at (2,1), one storage buffer at (0,3), one uniform buffer at
(1,2), all fully decorated. -/
def gfxWitnessModule : Module :=
  { sampledImages := [⟨1, true, true, 0, 0⟩],
    separateSamplers := [],
    storageImages := [⟨2, true, true, 2, 1⟩],
    storageBuffers := [⟨3, true, true, 0, 3⟩],
    uniformBuffers := [⟨4, true, true, 1, 2⟩],
    localSizeX := 0, localSizeY := 0, localSizeZ := 0 }

/-- Witness module for the compute remap and compute reflection: one
texture-sampler at (0,0), storage textures at (0,0) and (1,0), storage buffers
at (0,0) and (1,1), one uniform buffer at (2,0), local size (8,8,1). -/
def compWitnessModule : Module :=
  { sampledImages := [⟨1, true, true, 0, 0⟩],
    separateSamplers := [],
    storageImages := [⟨2, true, true, 0, 0⟩, ⟨3, true, true, 1, 0⟩],
    storageBuffers := [⟨4, true, true, 0, 0⟩, ⟨5, true, true, 1, 1⟩],
    uniformBuffers := [⟨6, true, true, 2, 0⟩],
    localSizeX := 8, localSizeY := 8, localSizeZ := 1 }

/-- Compute module on which the remapper assigns a duplicate Metal texture
index: readonly storage textures at (0,0) and (0,1) and a readwrite storage
texture at (1,0), everything decorated and on the conventional sets. -/
def dupIndexModule : Module :=
  { sampledImages := [], separateSamplers := [],
    storageImages := [⟨1, true, true, 0, 0⟩, ⟨2, true, true, 0, 1⟩,
                      ⟨3, true, true, 1, 0⟩],
    storageBuffers := [], uniformBuffers := [],
    localSizeX := 1, localSizeY := 1, localSizeZ := 1 }

/-- Graphics module whose single sampled image carries neither decoration and
reports descriptor set 7 — outside every convention of §6. -/
def undecoratedGfxModule : Module :=
  { sampledImages := [⟨1, false, false, 7, 0⟩],
    separateSamplers := [], storageImages := [], storageBuffers := [],
    uniformBuffers := [],
    localSizeX := 0, localSizeY := 0, localSizeZ := 0 }

/-- Compute module whose texture-sampler and uniform buffer carry no
decorations and sit on unconventional sets (5 and 9). -/
def undecoratedCompModule : Module :=
  { sampledImages := [⟨1, false, false, 5, 0⟩],
    separateSamplers := [], storageImages := [], storageBuffers := [],
    uniformBuffers := [⟨2, false, false, 9, 0⟩],
    localSizeX := 4, localSizeY := 1, localSizeZ := 1 }

/-- Concrete external-backend behaviour used for closed instantiations:
parsing always yields `emptyModule`, the transpiler emits the text "XSRC",
entrypoint cleansing appends "0" (as MSL does to `main`), and both compilers
produce one-byte blobs. -/
def extOracle : Ext :=
  { parse := fun _ => some emptyModule,
    compileOut := fun _ _ _ _ => some "XSRC",
    cleanse := fun _ _ e => e ++ "0",
    uninit := mslZero,
    dxcCompile := fun _ _ _ _ => some [7],
    fxcCompile := fun _ _ _ => some [9] }

/-- External-backend behaviour on an input whose SPIR-V parse fails
(`spvc_context_parse_spirv` returns a negative status). -/
def badParseOracle : Ext :=
  { extOracle with parse := fun _ => none }

/-- When every resource in the list is decorated and passes the set check, the
graphics loop succeeds and emits one binding per resource, each satisfying any
property guaranteed by the loop body. -/
theorem graphicsBindLoop_ok (setOK : Nat → Bool)
    (upd : MSLResourceBinding → Resource → MSLResourceBinding)
    (P : MSLResourceBinding → Resource → Prop)
    (hP : ∀ cur r, P (upd cur r) r) :
    ∀ (rs : List Resource) (cur : MSLResourceBinding),
      (∀ r ∈ rs, r.hasSet = true ∧ r.hasBinding = true ∧ setOK r.set = true) →
      ∃ fin out, graphicsBindLoop setOK upd cur rs = some (fin, out) ∧
        List.Forall₂ P out rs := by
  intro rs
  induction rs with
  | nil =>
    intro cur _
    exact ⟨cur, [], rfl, List.Forall₂.nil⟩
  | cons r rest ih =>
    intro cur h
    obtain ⟨h1, h2, h3⟩ := h r (by simp)
    obtain ⟨fin, out, heq, hfa⟩ := ih (upd cur r) (fun x hx => h x (by simp [hx]))
    refine ⟨fin, upd cur r :: out, ?_, List.Forall₂.cons (hP cur r) hfa⟩
    simp [graphicsBindLoop, h1, h2, h3, heq]

/-- When every resource in the list is decorated but some resource fails the
set check, the graphics loop fails. -/
theorem graphicsBindLoop_fail (setOK : Nat → Bool)
    (upd : MSLResourceBinding → Resource → MSLResourceBinding) :
    ∀ (rs : List Resource) (cur : MSLResourceBinding),
      (∀ r ∈ rs, r.hasSet = true ∧ r.hasBinding = true) →
      (∃ r ∈ rs, setOK r.set = false) →
      graphicsBindLoop setOK upd cur rs = none := by
  intro rs
  induction rs with
  | nil =>
    intro cur _ hbad
    simp at hbad
  | cons r rest ih =>
    intro cur hdec hbad
    obtain ⟨x, hx, hxbad⟩ := hbad
    obtain ⟨h1, h2⟩ := hdec r (by simp)
    rcases List.mem_cons.mp hx with rfl | hx'
    · simp [graphicsBindLoop, h1, h2, hxbad]
    · by_cases hs : setOK r.set = true
      · have hrest := ih (upd cur r) (fun y hy => hdec y (by simp [hy]))
          ⟨x, hx', hxbad⟩
        simp [graphicsBindLoop, h1, h2, hs, hrest]
      · have hs' : setOK r.set = false := by simpa using hs
        simp [graphicsBindLoop, h1, h2, hs']

/-- C1: For every vertex- or fragment-stage MSL transpilation whose resources
all carry set and binding decorations: every combined texture-sampler with set
0 or 2 is assigned `msl_texture = msl_sampler = binding`; every storage
texture with set 0 or 2 is assigned `msl_texture = N_ts + binding` with `N_ts`
the total texture-sampler count; every storage buffer with set 0 or 2 is
assigned `msl_buffer = binding`; every uniform buffer with set 1 or 3 is
assigned `msl_buffer = N_sb + binding` with `N_sb` the total storage-buffer
count; and any resource whose descriptor set is outside the allowed pair for
its kind causes the transpilation to fail with a null result. -/
theorem claim_C1 (st : ShaderStage) (m : Module)
    (hstage : (st == ShaderStage.compute) = false)
    (hdec : ∀ r ∈ m.textureSamplers ++ m.storageImages ++ m.storageBuffers ++
      m.uniformBuffers, r.hasSet = true ∧ r.hasBinding = true) :
    ((∀ r ∈ m.textureSamplers, set02 r.set = true) →
     (∀ r ∈ m.storageImages, set02 r.set = true) →
     (∀ r ∈ m.storageBuffers, set02 r.set = true) →
     (∀ r ∈ m.uniformBuffers, set13 r.set = true) →
     ∀ uninit, ∃ o1 o2 o3 o4,
       remapGraphicsMSL st m uninit = some (o1 ++ o2 ++ o3 ++ o4) ∧
       List.Forall₂ (fun e r => e.descSet = r.set ∧ e.binding = r.binding ∧
         e.mslTexture = r.binding ∧ e.mslSampler = r.binding)
         o1 m.textureSamplers ∧
       List.Forall₂ (fun e r => e.descSet = r.set ∧ e.binding = r.binding ∧
         e.mslTexture = m.textureSamplers.length + r.binding)
         o2 m.storageImages ∧
       List.Forall₂ (fun e r => e.descSet = r.set ∧ e.binding = r.binding ∧
         e.mslBuffer = r.binding) o3 m.storageBuffers ∧
       List.Forall₂ (fun e r => e.descSet = r.set ∧ e.binding = r.binding ∧
         e.mslBuffer = m.storageBuffers.length + r.binding)
         o4 m.uniformBuffers) ∧
    (((∃ r ∈ m.textureSamplers, set02 r.set = false) ∨
      (∃ r ∈ m.storageImages, set02 r.set = false) ∨
      (∃ r ∈ m.storageBuffers, set02 r.set = false) ∨
      (∃ r ∈ m.uniformBuffers, set13 r.set = false)) →
     (∀ uninit, remapGraphicsMSL st m uninit = none) ∧
     ∀ (o : Ext) (code : Bytes) (entry : String), o.parse code = some m →
       (internalTranspileFromSPIRV o Backend.msl 0 st code entry).1 =
         Out.fail) := by
  have hdecTS : ∀ r ∈ m.textureSamplers, r.hasSet = true ∧ r.hasBinding = true :=
    fun r hr => hdec r (by simp [hr])
  have hdecSI : ∀ r ∈ m.storageImages, r.hasSet = true ∧ r.hasBinding = true :=
    fun r hr => hdec r (by simp [hr])
  have hdecSB : ∀ r ∈ m.storageBuffers, r.hasSet = true ∧ r.hasBinding = true :=
    fun r hr => hdec r (by simp [hr])
  have hdecUB : ∀ r ∈ m.uniformBuffers, r.hasSet = true ∧ r.hasBinding = true :=
    fun r hr => hdec r (by simp [hr])
  constructor
  · intro hts hsi hsb hub uninit
    obtain ⟨c1, o1, e1, f1⟩ := graphicsBindLoop_ok set02 (gfxTexSamplerUpd st)
      (fun e r => e.descSet = r.set ∧ e.binding = r.binding ∧
        e.mslTexture = r.binding ∧ e.mslSampler = r.binding)
      (fun _ _ => ⟨rfl, rfl, rfl, rfl⟩) m.textureSamplers uninit
      (fun r hr => ⟨(hdecTS r hr).1, (hdecTS r hr).2, hts r hr⟩)
    obtain ⟨c2, o2, e2, f2⟩ := graphicsBindLoop_ok set02
      (gfxStorageTexUpd st m.textureSamplers.length)
      (fun e r => e.descSet = r.set ∧ e.binding = r.binding ∧
        e.mslTexture = m.textureSamplers.length + r.binding)
      (fun _ _ => ⟨rfl, rfl, rfl⟩) m.storageImages c1
      (fun r hr => ⟨(hdecSI r hr).1, (hdecSI r hr).2, hsi r hr⟩)
    obtain ⟨c3, o3, e3, f3⟩ := graphicsBindLoop_ok set02 (gfxStorageBufUpd st)
      (fun e r => e.descSet = r.set ∧ e.binding = r.binding ∧
        e.mslBuffer = r.binding)
      (fun _ _ => ⟨rfl, rfl, rfl⟩) m.storageBuffers c2
      (fun r hr => ⟨(hdecSB r hr).1, (hdecSB r hr).2, hsb r hr⟩)
    obtain ⟨c4, o4, e4, f4⟩ := graphicsBindLoop_ok set13
      (gfxUniformBufUpd st m.storageBuffers.length)
      (fun e r => e.descSet = r.set ∧ e.binding = r.binding ∧
        e.mslBuffer = m.storageBuffers.length + r.binding)
      (fun _ _ => ⟨rfl, rfl, rfl⟩) m.uniformBuffers c3
      (fun r hr => ⟨(hdecUB r hr).1, (hdecUB r hr).2, hub r hr⟩)
    exact ⟨o1, o2, o3, o4, by simp [remapGraphicsMSL, e1, e2, e3, e4],
      f1, f2, f3, f4⟩
  · intro hbad
    have hnone : ∀ uninit, remapGraphicsMSL st m uninit = none := by
      intro uninit
      rcases hbad with hb | hb | hb | hb
      · have h1 := graphicsBindLoop_fail set02 (gfxTexSamplerUpd st)
          m.textureSamplers uninit hdecTS hb
        simp [remapGraphicsMSL, h1]
      · cases e1 : graphicsBindLoop set02 (gfxTexSamplerUpd st) uninit
            m.textureSamplers with
        | none => simp [remapGraphicsMSL, e1]
        | some p1 =>
          have h2 := graphicsBindLoop_fail set02
            (gfxStorageTexUpd st m.textureSamplers.length)
            m.storageImages p1.1 hdecSI hb
          simp [remapGraphicsMSL, e1, h2]
      · cases e1 : graphicsBindLoop set02 (gfxTexSamplerUpd st) uninit
            m.textureSamplers with
        | none => simp [remapGraphicsMSL, e1]
        | some p1 =>
          cases e2 : graphicsBindLoop set02
              (gfxStorageTexUpd st m.textureSamplers.length) p1.1
              m.storageImages with
          | none => simp [remapGraphicsMSL, e1, e2]
          | some p2 =>
            have h3 := graphicsBindLoop_fail set02 (gfxStorageBufUpd st)
              m.storageBuffers p2.1 hdecSB hb
            simp [remapGraphicsMSL, e1, e2, h3]
      · cases e1 : graphicsBindLoop set02 (gfxTexSamplerUpd st) uninit
            m.textureSamplers with
        | none => simp [remapGraphicsMSL, e1]
        | some p1 =>
          cases e2 : graphicsBindLoop set02
              (gfxStorageTexUpd st m.textureSamplers.length) p1.1
              m.storageImages with
          | none => simp [remapGraphicsMSL, e1, e2]
          | some p2 =>
            cases e3 : graphicsBindLoop set02 (gfxStorageBufUpd st) p2.1
                m.storageBuffers with
            | none => simp [remapGraphicsMSL, e1, e2, e3]
            | some p3 =>
              have h4 := graphicsBindLoop_fail set13
                (gfxUniformBufUpd st m.storageBuffers.length)
                m.uniformBuffers p3.1 hdecUB hb
              simp [remapGraphicsMSL, e1, e2, e3, h4]
    refine ⟨hnone, fun o code entry hparse => ?_⟩
    simp [internalTranspileFromSPIRV, hparse, hstage, hnone o.uninit]

/-- Closed witness for C1 at `gfxWitnessModule`. -/
theorem claim_C1_witness :
    remapGraphicsMSL ShaderStage.vertex gfxWitnessModule mslZero ≠ none := by
  obtain ⟨o1, o2, o3, o4, heq, -⟩ :=
    (claim_C1 ShaderStage.vertex gfxWitnessModule (by decide) (by decide)).1
      (by decide) (by decide) (by decide) (by decide) mslZero
  simp [heq]

/-- Success shape of the compute texture-sampler loop: with every resource
decorated and on set 0, it emits one binding per resource carrying the
successive counter values. -/
theorem computeTexSamplerLoop_ok (st : ShaderStage) :
    ∀ (rs : List Resource) (cur : MSLResourceBinding) (nt : Nat),
      (∀ r ∈ rs, r.hasSet = true ∧ r.hasBinding = true ∧ r.set = 0) →
      ∃ fin out, computeTexSamplerLoop st cur nt rs =
          some (fin, nt + rs.length, out) ∧
        out.map (fun e => e.mslTexture) = ctrIndices nt rs.length ∧
        out.map (fun e => e.mslSampler) = ctrIndices nt rs.length ∧
        out.map (fun e => e.descSet) = rs.map (fun r => r.set) ∧
        out.map (fun e => e.binding) = rs.map (fun r => r.binding) := by
  intro rs
  induction rs with
  | nil =>
    intro cur nt _
    exact ⟨cur, [], rfl, rfl, rfl, rfl, rfl⟩
  | cons r rest ih =>
    intro cur nt h
    obtain ⟨h1, h2, h3⟩ := h r (by simp)
    obtain ⟨fin, out, heq, m1, m2, m3, m4⟩ :=
      ih { cur with
           stage := st, descSet := 0, binding := r.binding,
           mslTexture := nt, mslSampler := nt } (nt + 1)
        (fun x hx => h x (by simp [hx]))
    refine ⟨fin, { cur with
      stage := st, descSet := 0,
      binding := r.binding, mslTexture := nt, mslSampler := nt } :: out,
      ?_, ?_, ?_, ?_, ?_⟩
    · simp [computeTexSamplerLoop, h1, h2, h3, heq]; omega
    · simp [ctrIndices, m1]
    · simp [ctrIndices, m2]
    · simp [m3, h3]
    · simp [m4]

/-- The compute texture-sampler loop fails when some decorated resource sits
on a set other than 0. -/
theorem computeTexSamplerLoop_fail (st : ShaderStage) :
    ∀ (rs : List Resource) (cur : MSLResourceBinding) (nt : Nat),
      (∀ r ∈ rs, r.hasSet = true ∧ r.hasBinding = true) →
      (∃ x ∈ rs, (x.set == 0) = false) →
      computeTexSamplerLoop st cur nt rs = none := by
  intro rs
  induction rs with
  | nil =>
    intro cur nt _ hbad
    simp at hbad
  | cons r rest ih =>
    intro cur nt hdec hbad
    obtain ⟨x, hx, hxbad⟩ := hbad
    obtain ⟨h1, h2⟩ := hdec r (by simp)
    rcases List.mem_cons.mp hx with rfl | hx'
    · have hne : ¬ x.set = 0 := by simpa using hxbad
      simp [computeTexSamplerLoop, h1, h2, hne]
    · by_cases hs : r.set = 0
      · have hrest := ih { cur with
            stage := st, descSet := 0,
            binding := r.binding, mslTexture := nt, mslSampler := nt } (nt + 1)
          (fun y hy => hdec y (by simp [hy])) ⟨x, hx', hxbad⟩
        simp [computeTexSamplerLoop, h1, h2, hs, hrest]
      · simp [computeTexSamplerLoop, h1, h2, hs]

/-- Success shape of the compute readonly storage-texture loop: with every
resource decorated and on set 0 or 1, it emits one binding per set-0 resource
with `msl_texture = counter + binding`, bumping the counter per emission. -/
theorem computeROTexLoop_ok (st : ShaderStage) :
    ∀ (rs : List Resource) (cur : MSLResourceBinding) (nt : Nat),
      (∀ r ∈ rs, r.hasSet = true ∧ r.hasBinding = true ∧
        (r.set == 0 || r.set == 1) = true) →
      ∃ fin out, computeROTexLoop st cur nt rs =
          some (fin, nt + (rs.filter (fun r => r.set == 0)).length, out) ∧
        out.map (fun e => e.mslTexture) =
          ctrPlusBinding nt (rs.filter (fun r => r.set == 0)) ∧
        out.map (fun e => e.descSet) =
          (rs.filter (fun r => r.set == 0)).map (fun r => r.set) ∧
        out.map (fun e => e.binding) =
          (rs.filter (fun r => r.set == 0)).map (fun r => r.binding) := by
  intro rs
  induction rs with
  | nil =>
    intro cur nt _
    exact ⟨cur, [], rfl, rfl, rfl, rfl⟩
  | cons r rest ih =>
    intro cur nt h
    obtain ⟨h1, h2, h3⟩ := h r (by simp)
    by_cases hr0 : r.set = 0
    · obtain ⟨fin, out, heq, m1, m2, m3⟩ :=
        ih { cur with
             stage := st, descSet := 0, binding := r.binding,
             mslTexture := nt + r.binding } (nt + 1)
          (fun x hx => h x (by simp [hx]))
      refine ⟨fin, { cur with
        stage := st, descSet := 0,
        binding := r.binding, mslTexture := nt + r.binding } :: out,
        ?_, ?_, ?_, ?_⟩
      · simp [computeROTexLoop, h1, h2, h3, hr0, heq]; omega
      · simp [hr0, ctrPlusBinding, m1]
      · simp [hr0, m2]
      · simp [hr0, m3]
    · have h1s : r.set = 1 := by
        have h3' := h3
        simp [hr0] at h3'
        exact h3'
      obtain ⟨fin, out, heq, m1, m2, m3⟩ :=
        ih cur nt (fun x hx => h x (by simp [hx]))
      refine ⟨fin, out, ?_, ?_, ?_, ?_⟩
      · simp [computeROTexLoop, h1, h2, h3, h1s, heq]
      · simp [h1s, m1]
      · simp [h1s, m2]
      · simp [h1s, m3]

/-- The compute readonly storage-texture loop fails when some decorated
resource sits outside sets {0, 1}. -/
theorem computeROTexLoop_fail (st : ShaderStage) :
    ∀ (rs : List Resource) (cur : MSLResourceBinding) (nt : Nat),
      (∀ r ∈ rs, r.hasSet = true ∧ r.hasBinding = true) →
      (∃ x ∈ rs, (x.set == 0 || x.set == 1) = false) →
      computeROTexLoop st cur nt rs = none := by
  intro rs
  induction rs with
  | nil =>
    intro cur nt _ hbad
    simp at hbad
  | cons r rest ih =>
    intro cur nt hdec hbad
    obtain ⟨x, hx, hxbad⟩ := hbad
    obtain ⟨h1, h2⟩ := hdec r (by simp)
    rcases List.mem_cons.mp hx with rfl | hx'
    · have hne : ¬ x.set = 0 ∧ ¬ x.set = 1 := by
        constructor <;> · intro hc; simp [hc] at hxbad
      simp [computeROTexLoop, h1, h2, hne.1, hne.2]
    · by_cases hr0 : r.set = 0
      · have hrest := ih { cur with
            stage := st, descSet := 0, binding := r.binding,
            mslTexture := nt + r.binding } (nt + 1)
          (fun y hy => hdec y (by simp [hy])) ⟨x, hx', hxbad⟩
        simp [computeROTexLoop, h1, h2, hr0, hrest]
      · by_cases hr1 : r.set = 1
        · have hrest := ih cur nt (fun y hy => hdec y (by simp [hy]))
            ⟨x, hx', hxbad⟩
          simp [computeROTexLoop, h1, h2, hr0, hr1, hrest]
        · simp [computeROTexLoop, h1, h2, hr0, hr1]

/-- Evaluation shape of the (check-free, total) compute readwrite
storage-texture loop: one binding per set-1 resource with
`msl_texture = counter + binding`, bumping the counter per emission. -/
theorem computeRWTexLoop_eq (st : ShaderStage) :
    ∀ (rs : List Resource) (cur : MSLResourceBinding) (nt : Nat),
      ∃ fin out, computeRWTexLoop st cur nt rs =
          (fin, nt + (rs.filter (fun r => r.set == 1)).length, out) ∧
        out.map (fun e => e.mslTexture) =
          ctrPlusBinding nt (rs.filter (fun r => r.set == 1)) ∧
        out.map (fun e => e.descSet) =
          (rs.filter (fun r => r.set == 1)).map (fun r => r.set) ∧
        out.map (fun e => e.binding) =
          (rs.filter (fun r => r.set == 1)).map (fun r => r.binding) := by
  intro rs
  induction rs with
  | nil =>
    intro cur nt
    exact ⟨cur, [], rfl, rfl, rfl, rfl⟩
  | cons r rest ih =>
    intro cur nt
    by_cases hr1 : r.set = 1
    · obtain ⟨fin, out, heq, m1, m2, m3⟩ :=
        ih { cur with
             stage := st, descSet := 1, binding := r.binding,
             mslTexture := nt + r.binding } (nt + 1)
      refine ⟨fin, { cur with
        stage := st, descSet := 1,
        binding := r.binding, mslTexture := nt + r.binding } :: out,
        ?_, ?_, ?_, ?_⟩
      · simp [computeRWTexLoop, hr1, heq]; omega
      · simp [hr1, ctrPlusBinding, m1]
      · simp [hr1, m2]
      · simp [hr1, m3]
    · obtain ⟨fin, out, heq, m1, m2, m3⟩ := ih cur nt
      refine ⟨fin, out, ?_, ?_, ?_, ?_⟩
      · simp [computeRWTexLoop, hr1, heq]
      · simp [hr1, m1]
      · simp [hr1, m2]
      · simp [hr1, m3]

/-- Success shape of the compute readonly storage-buffer loop: with every
resource decorated and on set 0 or 1, it emits one binding per set-0 resource
with `msl_buffer = binding`. -/
theorem computeROBufLoop_ok (st : ShaderStage) :
    ∀ (rs : List Resource) (cur : MSLResourceBinding) (nb : Nat),
      (∀ r ∈ rs, r.hasSet = true ∧ r.hasBinding = true ∧
        (r.set == 0 || r.set == 1) = true) →
      ∃ fin out, computeROBufLoop st cur nb rs =
          some (fin, nb + (rs.filter (fun r => r.set == 0)).length, out) ∧
        out.map (fun e => e.mslBuffer) =
          (rs.filter (fun r => r.set == 0)).map (fun r => r.binding) ∧
        out.map (fun e => e.descSet) =
          (rs.filter (fun r => r.set == 0)).map (fun r => r.set) ∧
        out.map (fun e => e.binding) =
          (rs.filter (fun r => r.set == 0)).map (fun r => r.binding) := by
  intro rs
  induction rs with
  | nil =>
    intro cur nb _
    exact ⟨cur, [], rfl, rfl, rfl, rfl⟩
  | cons r rest ih =>
    intro cur nb h
    obtain ⟨h1, h2, h3⟩ := h r (by simp)
    by_cases hr0 : r.set = 0
    · obtain ⟨fin, out, heq, m1, m2, m3⟩ :=
        ih { cur with
             stage := st, descSet := 0, binding := r.binding,
             mslBuffer := r.binding } (nb + 1)
          (fun x hx => h x (by simp [hx]))
      refine ⟨fin, { cur with
        stage := st, descSet := 0,
        binding := r.binding, mslBuffer := r.binding } :: out,
        ?_, ?_, ?_, ?_⟩
      · simp [computeROBufLoop, h1, h2, h3, hr0, heq]; omega
      · simp [hr0, m1]
      · simp [hr0, m2]
      · simp [hr0, m3]
    · have h1s : r.set = 1 := by
        have h3' := h3
        simp [hr0] at h3'
        exact h3'
      obtain ⟨fin, out, heq, m1, m2, m3⟩ :=
        ih cur nb (fun x hx => h x (by simp [hx]))
      refine ⟨fin, out, ?_, ?_, ?_, ?_⟩
      · simp [computeROBufLoop, h1, h2, h3, h1s, heq]
      · simp [h1s, m1]
      · simp [h1s, m2]
      · simp [h1s, m3]

/-- The compute readonly storage-buffer loop fails when some decorated
resource sits outside sets {0, 1}. -/
theorem computeROBufLoop_fail (st : ShaderStage) :
    ∀ (rs : List Resource) (cur : MSLResourceBinding) (nb : Nat),
      (∀ r ∈ rs, r.hasSet = true ∧ r.hasBinding = true) →
      (∃ x ∈ rs, (x.set == 0 || x.set == 1) = false) →
      computeROBufLoop st cur nb rs = none := by
  intro rs
  induction rs with
  | nil =>
    intro cur nb _ hbad
    simp at hbad
  | cons r rest ih =>
    intro cur nb hdec hbad
    obtain ⟨x, hx, hxbad⟩ := hbad
    obtain ⟨h1, h2⟩ := hdec r (by simp)
    rcases List.mem_cons.mp hx with rfl | hx'
    · have hne : ¬ x.set = 0 ∧ ¬ x.set = 1 := by
        constructor <;> · intro hc; simp [hc] at hxbad
      simp [computeROBufLoop, h1, h2, hne.1, hne.2]
    · by_cases hr0 : r.set = 0
      · have hrest := ih { cur with
            stage := st, descSet := 0, binding := r.binding,
            mslBuffer := r.binding } (nb + 1)
          (fun y hy => hdec y (by simp [hy])) ⟨x, hx', hxbad⟩
        simp [computeROBufLoop, h1, h2, hr0, hrest]
      · by_cases hr1 : r.set = 1
        · have hrest := ih cur nb (fun y hy => hdec y (by simp [hy]))
            ⟨x, hx', hxbad⟩
          simp [computeROBufLoop, h1, h2, hr0, hr1, hrest]
        · simp [computeROBufLoop, h1, h2, hr0, hr1]

/-- Evaluation shape of the (check-free, total) compute readwrite
storage-buffer loop: one binding per set-1 resource with
`msl_buffer = counter + binding`, bumping the counter per emission. -/
theorem computeRWBufLoop_eq (st : ShaderStage) :
    ∀ (rs : List Resource) (cur : MSLResourceBinding) (nb : Nat),
      ∃ fin out, computeRWBufLoop st cur nb rs =
          (fin, nb + (rs.filter (fun r => r.set == 1)).length, out) ∧
        out.map (fun e => e.mslBuffer) =
          ctrPlusBinding nb (rs.filter (fun r => r.set == 1)) ∧
        out.map (fun e => e.descSet) =
          (rs.filter (fun r => r.set == 1)).map (fun r => r.set) ∧
        out.map (fun e => e.binding) =
          (rs.filter (fun r => r.set == 1)).map (fun r => r.binding) := by
  intro rs
  induction rs with
  | nil =>
    intro cur nb
    exact ⟨cur, [], rfl, rfl, rfl, rfl⟩
  | cons r rest ih =>
    intro cur nb
    by_cases hr1 : r.set = 1
    · obtain ⟨fin, out, heq, m1, m2, m3⟩ :=
        ih { cur with
             stage := st, descSet := 1, binding := r.binding,
             mslBuffer := nb + r.binding } (nb + 1)
      refine ⟨fin, { cur with
        stage := st, descSet := 1,
        binding := r.binding, mslBuffer := nb + r.binding } :: out,
        ?_, ?_, ?_, ?_⟩
      · simp [computeRWBufLoop, hr1, heq]; omega
      · simp [hr1, ctrPlusBinding, m1]
      · simp [hr1, m2]
      · simp [hr1, m3]
    · obtain ⟨fin, out, heq, m1, m2, m3⟩ := ih cur nb
      refine ⟨fin, out, ?_, ?_, ?_, ?_⟩
      · simp [computeRWBufLoop, hr1, heq]
      · simp [hr1, m1]
      · simp [hr1, m2]
      · simp [hr1, m3]

/-- Success shape of the compute uniform-buffer loop: with every resource
decorated and on set 2, it emits one binding per resource with
`msl_buffer = counter + binding`, bumping the counter per emission. -/
theorem computeUniformBufLoop_ok (st : ShaderStage) :
    ∀ (rs : List Resource) (cur : MSLResourceBinding) (nb : Nat),
      (∀ r ∈ rs, r.hasSet = true ∧ r.hasBinding = true ∧ r.set = 2) →
      ∃ fin out, computeUniformBufLoop st cur nb rs =
          some (fin, nb + rs.length, out) ∧
        out.map (fun e => e.mslBuffer) = ctrPlusBinding nb rs ∧
        out.map (fun e => e.descSet) = rs.map (fun r => r.set) ∧
        out.map (fun e => e.binding) = rs.map (fun r => r.binding) := by
  intro rs
  induction rs with
  | nil =>
    intro cur nb _
    exact ⟨cur, [], rfl, rfl, rfl, rfl⟩
  | cons r rest ih =>
    intro cur nb h
    obtain ⟨h1, h2, h3⟩ := h r (by simp)
    obtain ⟨fin, out, heq, m1, m2, m3⟩ :=
      ih { cur with
           stage := st, descSet := 2, binding := r.binding,
           mslBuffer := nb + r.binding } (nb + 1)
        (fun x hx => h x (by simp [hx]))
    refine ⟨fin, { cur with
      stage := st, descSet := 2,
      binding := r.binding, mslBuffer := nb + r.binding } :: out,
      ?_, ?_, ?_, ?_⟩
    · simp [computeUniformBufLoop, h1, h2, h3, heq]; omega
    · simp [ctrPlusBinding, m1]
    · simp [m2, h3]
    · simp [m3]

/-- The compute uniform-buffer loop fails when some decorated resource sits on
a set other than 2. -/
theorem computeUniformBufLoop_fail (st : ShaderStage) :
    ∀ (rs : List Resource) (cur : MSLResourceBinding) (nb : Nat),
      (∀ r ∈ rs, r.hasSet = true ∧ r.hasBinding = true) →
      (∃ x ∈ rs, (x.set == 2) = false) →
      computeUniformBufLoop st cur nb rs = none := by
  intro rs
  induction rs with
  | nil =>
    intro cur nb _ hbad
    simp at hbad
  | cons r rest ih =>
    intro cur nb hdec hbad
    obtain ⟨x, hx, hxbad⟩ := hbad
    obtain ⟨h1, h2⟩ := hdec r (by simp)
    rcases List.mem_cons.mp hx with rfl | hx'
    · have hne : ¬ x.set = 2 := by simpa using hxbad
      simp [computeUniformBufLoop, h1, h2, hne]
    · by_cases hs : r.set = 2
      · have hrest := ih { cur with
            stage := st, descSet := 2,
            binding := r.binding, mslBuffer := nb + r.binding } (nb + 1)
          (fun y hy => hdec y (by simp [hy])) ⟨x, hx', hxbad⟩
        simp [computeUniformBufLoop, h1, h2, hs, hrest]
      · simp [computeUniformBufLoop, h1, h2, hs]

/-- C2: For every compute-stage MSL transpilation, resources are remapped in
the fixed order texture-samplers (set 0), readonly storage textures (set 0),
readwrite storage textures (set 1), readonly storage buffers (set 0),
readwrite storage buffers (set 1), uniform buffers (set 2), with a texture
counter `T` and a buffer counter `B` both starting at 0: each texture-sampler
gets `msl_texture = msl_sampler = T` and `T` increments; each storage texture
(readonly first, then readwrite) gets `msl_texture = T + binding` and `T`
increments; each readonly storage buffer gets `msl_buffer = binding` and `B`
increments; each readwrite storage buffer and then each uniform buffer gets
`msl_buffer = B + binding` and `B` increments; a texture-sampler with set
other than 0, a storage texture or storage buffer with set outside {0, 1}, or
a uniform buffer with set other than 2 makes the transpilation fail. -/
theorem claim_C2 (m : Module)
    (hdec : ∀ r ∈ m.textureSamplers ++ m.storageImages ++ m.storageBuffers ++
      m.uniformBuffers, r.hasSet = true ∧ r.hasBinding = true) :
    ((∀ r ∈ m.textureSamplers, r.set = 0) →
     (∀ r ∈ m.storageImages, (r.set == 0 || r.set == 1) = true) →
     (∀ r ∈ m.storageBuffers, (r.set == 0 || r.set == 1) = true) →
     (∀ r ∈ m.uniformBuffers, r.set = 2) →
     ∀ uninit, ∃ o1 o2 o3 o4 o5 o6,
       remapComputeMSL ShaderStage.compute m uninit =
         some (o1 ++ o2 ++ o3 ++ o4 ++ o5 ++ o6) ∧
       o1.map (fun e => e.mslTexture) = ctrIndices 0 m.textureSamplers.length ∧
       o1.map (fun e => e.mslSampler) = ctrIndices 0 m.textureSamplers.length ∧
       o1.map (fun e => e.binding) =
         m.textureSamplers.map (fun r => r.binding) ∧
       o2.map (fun e => e.mslTexture) =
         ctrPlusBinding m.textureSamplers.length
           (m.storageImages.filter (fun r => r.set == 0)) ∧
       o2.map (fun e => e.binding) =
         (m.storageImages.filter (fun r => r.set == 0)).map
           (fun r => r.binding) ∧
       o3.map (fun e => e.mslTexture) =
         ctrPlusBinding (m.textureSamplers.length +
           (m.storageImages.filter (fun r => r.set == 0)).length)
           (m.storageImages.filter (fun r => r.set == 1)) ∧
       o3.map (fun e => e.binding) =
         (m.storageImages.filter (fun r => r.set == 1)).map
           (fun r => r.binding) ∧
       o4.map (fun e => e.mslBuffer) =
         (m.storageBuffers.filter (fun r => r.set == 0)).map
           (fun r => r.binding) ∧
       o5.map (fun e => e.mslBuffer) =
         ctrPlusBinding (m.storageBuffers.filter (fun r => r.set == 0)).length
           (m.storageBuffers.filter (fun r => r.set == 1)) ∧
       o6.map (fun e => e.mslBuffer) =
         ctrPlusBinding
           ((m.storageBuffers.filter (fun r => r.set == 0)).length +
            (m.storageBuffers.filter (fun r => r.set == 1)).length)
           m.uniformBuffers) ∧
    (((∃ r ∈ m.textureSamplers, (r.set == 0) = false) ∨
      (∃ r ∈ m.storageImages, (r.set == 0 || r.set == 1) = false) ∨
      (∃ r ∈ m.storageBuffers, (r.set == 0 || r.set == 1) = false) ∨
      (∃ r ∈ m.uniformBuffers, (r.set == 2) = false)) →
     (∀ uninit, remapComputeMSL ShaderStage.compute m uninit = none) ∧
     ∀ (o : Ext) (code : Bytes) (entry : String), o.parse code = some m →
       (internalTranspileFromSPIRV o Backend.msl 0 ShaderStage.compute code
         entry).1 = Out.fail) := by
  have hdecTS : ∀ r ∈ m.textureSamplers, r.hasSet = true ∧ r.hasBinding = true :=
    fun r hr => hdec r (by simp [hr])
  have hdecSI : ∀ r ∈ m.storageImages, r.hasSet = true ∧ r.hasBinding = true :=
    fun r hr => hdec r (by simp [hr])
  have hdecSB : ∀ r ∈ m.storageBuffers, r.hasSet = true ∧ r.hasBinding = true :=
    fun r hr => hdec r (by simp [hr])
  have hdecUB : ∀ r ∈ m.uniformBuffers, r.hasSet = true ∧ r.hasBinding = true :=
    fun r hr => hdec r (by simp [hr])
  constructor
  · intro hts hsi hsb hub uninit
    obtain ⟨c1, o1, e1, t1a, t1b, t1c, t1d⟩ :=
      computeTexSamplerLoop_ok ShaderStage.compute m.textureSamplers uninit 0
        (fun r hr => ⟨(hdecTS r hr).1, (hdecTS r hr).2, hts r hr⟩)
    rw [Nat.zero_add] at e1
    obtain ⟨c2, o2, e2, t2a, t2b, t2c⟩ :=
      computeROTexLoop_ok ShaderStage.compute m.storageImages c1
        m.textureSamplers.length
        (fun r hr => ⟨(hdecSI r hr).1, (hdecSI r hr).2, hsi r hr⟩)
    obtain ⟨c3, o3, e3, t3a, t3b, t3c⟩ :=
      computeRWTexLoop_eq ShaderStage.compute m.storageImages c2
        (m.textureSamplers.length +
          (m.storageImages.filter (fun r => r.set == 0)).length)
    obtain ⟨c4, o4, e4, t4a, t4b, t4c⟩ :=
      computeROBufLoop_ok ShaderStage.compute m.storageBuffers c3 0
        (fun r hr => ⟨(hdecSB r hr).1, (hdecSB r hr).2, hsb r hr⟩)
    rw [Nat.zero_add] at e4
    obtain ⟨c5, o5, e5, t5a, t5b, t5c⟩ :=
      computeRWBufLoop_eq ShaderStage.compute m.storageBuffers c4
        (m.storageBuffers.filter (fun r => r.set == 0)).length
    obtain ⟨c6, o6, e6, t6a, t6b, t6c⟩ :=
      computeUniformBufLoop_ok ShaderStage.compute m.uniformBuffers c5
        ((m.storageBuffers.filter (fun r => r.set == 0)).length +
         (m.storageBuffers.filter (fun r => r.set == 1)).length)
        (fun r hr => ⟨(hdecUB r hr).1, (hdecUB r hr).2, hub r hr⟩)
    exact ⟨o1, o2, o3, o4, o5, o6,
      by simp [remapComputeMSL, e1, e2, e3, e4, e5, e6],
      t1a, t1b, t1d, t2a, t2c, t3a, t3c, t4a, t5a, t6a⟩
  · intro hbad
    have hnone : ∀ uninit, remapComputeMSL ShaderStage.compute m uninit = none := by
      intro uninit
      rcases hbad with hb | hb | hb | hb
      · have h1 := computeTexSamplerLoop_fail ShaderStage.compute
          m.textureSamplers uninit 0 hdecTS hb
        simp [remapComputeMSL, h1]
      · cases e1 : computeTexSamplerLoop ShaderStage.compute uninit 0
            m.textureSamplers with
        | none => simp [remapComputeMSL, e1]
        | some p1 =>
          have h2 := computeROTexLoop_fail ShaderStage.compute m.storageImages
            p1.1 p1.2.1 hdecSI hb
          simp [remapComputeMSL, e1, h2]
      · cases e1 : computeTexSamplerLoop ShaderStage.compute uninit 0
            m.textureSamplers with
        | none => simp [remapComputeMSL, e1]
        | some p1 =>
          cases e2 : computeROTexLoop ShaderStage.compute p1.1 p1.2.1
              m.storageImages with
          | none => simp [remapComputeMSL, e1, e2]
          | some p2 =>
            obtain ⟨c3, o3, e3, -, -, -⟩ :=
              computeRWTexLoop_eq ShaderStage.compute m.storageImages p2.1 p2.2.1
            have h4 := computeROBufLoop_fail ShaderStage.compute
              m.storageBuffers c3 0 hdecSB hb
            simp [remapComputeMSL, e1, e2, e3, h4]
      · cases e1 : computeTexSamplerLoop ShaderStage.compute uninit 0
            m.textureSamplers with
        | none => simp [remapComputeMSL, e1]
        | some p1 =>
          cases e2 : computeROTexLoop ShaderStage.compute p1.1 p1.2.1
              m.storageImages with
          | none => simp [remapComputeMSL, e1, e2]
          | some p2 =>
            obtain ⟨c3, o3, e3, -, -, -⟩ :=
              computeRWTexLoop_eq ShaderStage.compute m.storageImages p2.1 p2.2.1
            cases e4 : computeROBufLoop ShaderStage.compute c3 0
                m.storageBuffers with
            | none => simp [remapComputeMSL, e1, e2, e3, e4]
            | some p4 =>
              obtain ⟨c5, o5, e5, -, -, -⟩ :=
                computeRWBufLoop_eq ShaderStage.compute m.storageBuffers p4.1
                  p4.2.1
              have h6 := computeUniformBufLoop_fail ShaderStage.compute
                m.uniformBuffers c5 (p4.2.1 +
                  (m.storageBuffers.filter (fun r => r.set == 1)).length)
                hdecUB hb
              simp [remapComputeMSL, e1, e2, e3, e4, e5, h6]
    refine ⟨hnone, fun o code entry hparse => ?_⟩
    simp [internalTranspileFromSPIRV, hparse, hnone o.uninit]

/-- Closed witness for C2 at `compWitnessModule`. -/
theorem claim_C2_witness :
    remapComputeMSL ShaderStage.compute compWitnessModule mslZero ≠ none := by
  obtain ⟨o1, o2, o3, o4, o5, o6, heq, -⟩ :=
    (claim_C2 compWitnessModule (by decide)).1
      (by decide) (by decide) (by decide) (by decide) mslZero
  simp [heq]

/-- With every storage image decorated and on set 0 or 1, the compute
reflection loop counts set-0 resources as readonly and set-1 as readwrite. -/
theorem classifyStorageImages_ok :
    ∀ (rs : List Resource) (ro rw : Nat),
      (∀ r ∈ rs, r.hasSet = true ∧ r.hasBinding = true ∧
        (r.set == 0 || r.set == 1) = true) →
      classifyStorageImages ro rw rs =
        some (ro + (rs.filter (fun r => r.set == 0)).length,
              rw + (rs.filter (fun r => r.set == 1)).length) := by
  intro rs
  induction rs with
  | nil =>
    intro ro rw _
    simp [classifyStorageImages]
  | cons r rest ih =>
    intro ro rw h
    obtain ⟨h1, h2, h3⟩ := h r (by simp)
    by_cases hr0 : r.set = 0
    · have := ih (ro + 1) rw (fun x hx => h x (by simp [hx]))
      simp [classifyStorageImages, h1, h2, hr0, this]
      omega
    · have h1s : r.set = 1 := by
        have h3' := h3
        simp [hr0] at h3'
        exact h3'
      have := ih ro (rw + 1) (fun x hx => h x (by simp [hx]))
      simp [classifyStorageImages, h1, h2, h1s, this]
      omega

/-- The storage-image reflection loop fails when some resource lacks a
decoration. -/
theorem classifyStorageImages_fail_deco :
    ∀ (rs : List Resource) (ro rw : Nat),
      (∃ x ∈ rs, (x.hasSet && x.hasBinding) = false) →
      classifyStorageImages ro rw rs = none := by
  intro rs
  induction rs with
  | nil =>
    intro ro rw hbad
    simp at hbad
  | cons r rest ih =>
    intro ro rw hbad
    obtain ⟨x, hx, hxbad⟩ := hbad
    rcases List.mem_cons.mp hx with rfl | hx'
    · rcases Bool.and_eq_false_iff.mp hxbad with hs | hb
      · simp [classifyStorageImages, hs]
      · simp [classifyStorageImages, hb]
    · by_cases h1 : r.hasSet = true
      · by_cases h2 : r.hasBinding = true
        · by_cases hr0 : r.set = 0
          · simp [classifyStorageImages, h1, h2, hr0,
              ih (ro + 1) rw ⟨x, hx', hxbad⟩]
          · by_cases hr1 : r.set = 1
            · simp [classifyStorageImages, h1, h2, hr0, hr1,
                ih ro (rw + 1) ⟨x, hx', hxbad⟩]
            · simp [classifyStorageImages, h1, h2, hr0, hr1]
        · simp [classifyStorageImages, h2]
      · simp [classifyStorageImages, h1]

/-- The storage-image reflection loop fails when some resource sits outside
sets {0, 1}. -/
theorem classifyStorageImages_fail_set :
    ∀ (rs : List Resource) (ro rw : Nat),
      (∃ x ∈ rs, (x.set == 0 || x.set == 1) = false) →
      classifyStorageImages ro rw rs = none := by
  intro rs
  induction rs with
  | nil =>
    intro ro rw hbad
    simp at hbad
  | cons r rest ih =>
    intro ro rw hbad
    obtain ⟨x, hx, hxbad⟩ := hbad
    rcases List.mem_cons.mp hx with rfl | hx'
    · have hne : ¬ x.set = 0 ∧ ¬ x.set = 1 := by
        constructor <;> · intro hc; simp [hc] at hxbad
      by_cases h1 : x.hasSet = true
      · by_cases h2 : x.hasBinding = true
        · simp [classifyStorageImages, h1, h2, hne.1, hne.2]
        · simp [classifyStorageImages, h2]
      · simp [classifyStorageImages, h1]
    · by_cases h1 : r.hasSet = true
      · by_cases h2 : r.hasBinding = true
        · by_cases hr0 : r.set = 0
          · simp [classifyStorageImages, h1, h2, hr0,
              ih (ro + 1) rw ⟨x, hx', hxbad⟩]
          · by_cases hr1 : r.set = 1
            · simp [classifyStorageImages, h1, h2, hr0, hr1,
                ih ro (rw + 1) ⟨x, hx', hxbad⟩]
            · simp [classifyStorageImages, h1, h2, hr0, hr1]
        · simp [classifyStorageImages, h2]
      · simp [classifyStorageImages, h1]

/-- With every storage buffer decorated and on set 0 or 1, the compute
reflection loop counts set-0 resources as readonly and set-1 as readwrite. -/
theorem classifyStorageBuffers_ok :
    ∀ (rs : List Resource) (ro rw : Nat),
      (∀ r ∈ rs, r.hasSet = true ∧ r.hasBinding = true ∧
        (r.set == 0 || r.set == 1) = true) →
      classifyStorageBuffers ro rw rs =
        some (ro + (rs.filter (fun r => r.set == 0)).length,
              rw + (rs.filter (fun r => r.set == 1)).length) := by
  intro rs
  induction rs with
  | nil =>
    intro ro rw _
    simp [classifyStorageBuffers]
  | cons r rest ih =>
    intro ro rw h
    obtain ⟨h1, h2, h3⟩ := h r (by simp)
    by_cases hr0 : r.set = 0
    · have := ih (ro + 1) rw (fun x hx => h x (by simp [hx]))
      simp [classifyStorageBuffers, h1, h2, hr0, this]
      omega
    · have h1s : r.set = 1 := by
        have h3' := h3
        simp [hr0] at h3'
        exact h3'
      have := ih ro (rw + 1) (fun x hx => h x (by simp [hx]))
      simp [classifyStorageBuffers, h1, h2, h1s, this]
      omega

/-- The storage-buffer reflection loop fails when some resource lacks a
decoration. -/
theorem classifyStorageBuffers_fail_deco :
    ∀ (rs : List Resource) (ro rw : Nat),
      (∃ x ∈ rs, (x.hasSet && x.hasBinding) = false) →
      classifyStorageBuffers ro rw rs = none := by
  intro rs
  induction rs with
  | nil =>
    intro ro rw hbad
    simp at hbad
  | cons r rest ih =>
    intro ro rw hbad
    obtain ⟨x, hx, hxbad⟩ := hbad
    rcases List.mem_cons.mp hx with rfl | hx'
    · rcases Bool.and_eq_false_iff.mp hxbad with hs | hb
      · simp [classifyStorageBuffers, hs]
      · simp [classifyStorageBuffers, hb]
    · by_cases h1 : r.hasSet = true
      · by_cases h2 : r.hasBinding = true
        · by_cases hr0 : r.set = 0
          · simp [classifyStorageBuffers, h1, h2, hr0,
              ih (ro + 1) rw ⟨x, hx', hxbad⟩]
          · by_cases hr1 : r.set = 1
            · simp [classifyStorageBuffers, h1, h2, hr0, hr1,
                ih ro (rw + 1) ⟨x, hx', hxbad⟩]
            · simp [classifyStorageBuffers, h1, h2, hr0, hr1]
        · simp [classifyStorageBuffers, h2]
      · simp [classifyStorageBuffers, h1]

/-- The storage-buffer reflection loop fails when some resource sits outside
sets {0, 1}. -/
theorem classifyStorageBuffers_fail_set :
    ∀ (rs : List Resource) (ro rw : Nat),
      (∃ x ∈ rs, (x.set == 0 || x.set == 1) = false) →
      classifyStorageBuffers ro rw rs = none := by
  intro rs
  induction rs with
  | nil =>
    intro ro rw hbad
    simp at hbad
  | cons r rest ih =>
    intro ro rw hbad
    obtain ⟨x, hx, hxbad⟩ := hbad
    rcases List.mem_cons.mp hx with rfl | hx'
    · have hne : ¬ x.set = 0 ∧ ¬ x.set = 1 := by
        constructor <;> · intro hc; simp [hc] at hxbad
      by_cases h1 : x.hasSet = true
      · by_cases h2 : x.hasBinding = true
        · simp [classifyStorageBuffers, h1, h2, hne.1, hne.2]
        · simp [classifyStorageBuffers, h2]
      · simp [classifyStorageBuffers, h1]
    · by_cases h1 : r.hasSet = true
      · by_cases h2 : r.hasBinding = true
        · by_cases hr0 : r.set = 0
          · simp [classifyStorageBuffers, h1, h2, hr0,
              ih (ro + 1) rw ⟨x, hx', hxbad⟩]
          · by_cases hr1 : r.set = 1
            · simp [classifyStorageBuffers, h1, h2, hr0, hr1,
                ih ro (rw + 1) ⟨x, hx', hxbad⟩]
            · simp [classifyStorageBuffers, h1, h2, hr0, hr1]
        · simp [classifyStorageBuffers, h2]
      · simp [classifyStorageBuffers, h1]

/-- C3: For every SPIR-V module accepted by compute reflection: each storage
image and each storage buffer must carry both set and binding decorations, is
counted as readonly when its descriptor set is 0 and as readwrite when it is
1, and any other descriptor set makes reflection fail; uniform buffers are
counted; and the returned threadcounts are the three dimensions of the
module's LocalSize execution mode. -/
theorem claim_C3 (m : Module) :
    ((∀ r ∈ m.storageImages ++ m.storageBuffers,
        r.hasSet = true ∧ r.hasBinding = true ∧
        (r.set == 0 || r.set == 1) = true) →
      reflectComputeSPIRV m = some
        { numSamplers := m.textureSamplers.length,
          numReadonlyStorageTextures :=
            (m.storageImages.filter (fun r => r.set == 0)).length,
          numReadonlyStorageBuffers :=
            (m.storageBuffers.filter (fun r => r.set == 0)).length,
          numReadwriteStorageTextures :=
            (m.storageImages.filter (fun r => r.set == 1)).length,
          numReadwriteStorageBuffers :=
            (m.storageBuffers.filter (fun r => r.set == 1)).length,
          numUniformBuffers := m.uniformBuffers.length,
          threadcountX := m.localSizeX,
          threadcountY := m.localSizeY,
          threadcountZ := m.localSizeZ }) ∧
    ((∃ r ∈ m.storageImages ++ m.storageBuffers,
        (r.hasSet && r.hasBinding) = false) →
      reflectComputeSPIRV m = none) ∧
    ((∃ r ∈ m.storageImages ++ m.storageBuffers,
        (r.set == 0 || r.set == 1) = false) →
      reflectComputeSPIRV m = none) := by
  refine ⟨?_, ?_, ?_⟩
  · intro h
    have e1 := classifyStorageImages_ok m.storageImages 0 0
      (fun r hr => h r (by simp [hr]))
    have e2 := classifyStorageBuffers_ok m.storageBuffers 0 0
      (fun r hr => h r (by simp [hr]))
    simp [reflectComputeSPIRV, e1, e2]
  · intro hbad
    obtain ⟨x, hx, hxbad⟩ := hbad
    rcases List.mem_append.mp hx with hx' | hx'
    · have e1 := classifyStorageImages_fail_deco m.storageImages 0 0
        ⟨x, hx', hxbad⟩
      simp [reflectComputeSPIRV, e1]
    · cases e1 : classifyStorageImages 0 0 m.storageImages with
      | none => simp [reflectComputeSPIRV, e1]
      | some p =>
        have e2 := classifyStorageBuffers_fail_deco m.storageBuffers 0 0
          ⟨x, hx', hxbad⟩
        simp [reflectComputeSPIRV, e1, e2]
  · intro hbad
    obtain ⟨x, hx, hxbad⟩ := hbad
    rcases List.mem_append.mp hx with hx' | hx'
    · have e1 := classifyStorageImages_fail_set m.storageImages 0 0
        ⟨x, hx', hxbad⟩
      simp [reflectComputeSPIRV, e1]
    · cases e1 : classifyStorageImages 0 0 m.storageImages with
      | none => simp [reflectComputeSPIRV, e1]
      | some p =>
        have e2 := classifyStorageBuffers_fail_set m.storageBuffers 0 0
          ⟨x, hx', hxbad⟩
        simp [reflectComputeSPIRV, e1, e2]

/-- Closed witness for C3 at `compWitnessModule`. -/
theorem claim_C3_witness :
    reflectComputeSPIRV compWitnessModule = some
      { numSamplers := 1, numReadonlyStorageTextures := 1,
        numReadonlyStorageBuffers := 1, numReadwriteStorageTextures := 1,
        numReadwriteStorageBuffers := 1, numUniformBuffers := 1,
        threadcountX := 8, threadcountY := 8, threadcountZ := 1 } := by
  have h := (claim_C3 compWitnessModule).1 (by decide)
  simpa using h

/-- A host on which every native library and symbol resolves. -/
def envAll : LoaderEnv :=
  { d3dLib := true, d3dFunc := true, dxcLib := true, dxcFunc := true,
    dxilLib := true, spvcLib := true, spvcFuncs := true }

/-- A host on which no native library resolves. -/
def envNone : LoaderEnv :=
  { d3dLib := false, d3dFunc := false, dxcLib := false, dxcFunc := false,
    dxilLib := false, spvcLib := false, spvcFuncs := false }

/-- A host on which everything resolves except the SPIRV-Cross shared
library. -/
def envNoSpvc : LoaderEnv :=
  { d3dLib := true, d3dFunc := true, dxcLib := true, dxcFunc := true,
    dxilLib := true, spvcLib := false, spvcFuncs := false }

/-- C4 (evaluation at the failing inputs): graphics reflection returns
metadata for a module whose only resource carries neither decoration and
reports descriptor set 7, and compute reflection returns metadata for a module
whose texture-sampler and uniform buffer are undecorated and sit on sets 5 and
9 — neither reflection pass enforces the decoration/descriptor-set invariants
the claim states (the graphics pass checks nothing, and the compute pass
checks only storage images and storage buffers). -/
theorem claim_C4_bug :
    reflectGraphicsSPIRV undecoratedGfxModule =
      { numSamplers := 1, numStorageTextures := 0, numStorageBuffers := 0,
        numUniformBuffers := 0 } ∧
    reflectComputeSPIRV undecoratedCompModule = some
      { numSamplers := 1, numReadonlyStorageTextures := 0,
        numReadonlyStorageBuffers := 0, numReadwriteStorageTextures := 0,
        numReadwriteStorageBuffers := 0, numUniformBuffers := 1,
        threadcountX := 4, threadcountY := 1, threadcountZ := 1 } := by
  exact ⟨rfl, rfl⟩

/-- C7 (evaluation at the failing input): on a buffer whose SPIR-V parse
fails, the internal transpile returns NULL as the claim describes, but both
public wrappers then dereference the NULL context
(`SDL_strlen(context->translated_source)`) instead of returning NULL. -/
theorem claim_C7_bug :
    (internalTranspileFromSPIRV badParseOracle Backend.msl 0
      ShaderStage.vertex [0, 0, 0, 0] "main").1 = Out.fail ∧
    (transpileMSLFromSPIRV badParseOracle [0, 0, 0, 0] "main"
      ShaderStage.vertex).1 = Out.crash ∧
    (transpileHLSLFromSPIRV badParseOracle [0, 0, 0, 0] "main"
      ShaderStage.vertex).1 = Out.crash := by
  exact ⟨rfl, rfl, rfl⟩

/-- C9 (evaluation at the failing input): on `dupIndexModule` — three
decorated storage textures on the conventional compute sets (0,0), (0,1),
(1,0) — the compute remapper accepts the module but assigns `msl_texture`
indices 0, 2, 2: the second readonly texture and the readwrite texture collide
in the Metal texture index space. -/
theorem claim_C9_bug :
    (remapComputeMSL ShaderStage.compute dupIndexModule mslZero).map
      (fun l => l.map (fun e => e.mslTexture)) = some [0, 2, 2] := by
  rfl

/-- C10 (evaluation at the failing input): the newer file's Quit resets all
its loader state, but the older file's Quit leaves `spirvcross_dll` and the
`spvc` function pointers set after a full Init, because its SPIRV-Cross
teardown block is guarded by the never-defined macro
`SDL_GPU_SHADERCROSS_SPIRV` (everything else in that file tests
`SDL_GPU_SHADERCROSS_SPIRVCROSS`); the d3dcompiler/dxcompiler state is
reset. -/
theorem claim_C10_bug :
    quitV1 false (initV1 false envAll resetV1) = resetV1 ∧
    quitV1 true (initV1 true envAll resetV1) = resetV1 ∧
    (initV2 ⟨false, false⟩ envAll resetV2).spirvcross_dll = true ∧
    (quitV2 ⟨false, false⟩ (initV2 ⟨false, false⟩ envAll
      resetV2)).spirvcross_dll = true ∧
    (quitV2 ⟨false, false⟩ (initV2 ⟨false, false⟩ envAll
      resetV2)).spvcFuncPtrs = true ∧
    (quitV2 ⟨false, false⟩ (initV2 ⟨false, false⟩ envAll
      resetV2)).d3dcompiler_dll = false ∧
    (quitV2 ⟨false, false⟩ (initV2 ⟨false, false⟩ envAll
      resetV2)).dxcompiler_dll = false := by
  decide

/-- C6 (counterexample): after an Init in which no native library loaded, the
newer file still reports DXIL (it adds DXIL unconditionally, so "contains DXIL
exactly when the HLSL compiler library loaded" fails); and after an Init in
which the SPIRV-Cross shared library did not load, the older file omits MSL
(so "contains SPIR-V and MSL" fails). -/
theorem claim_C6_counterexample :
    (getSPIRVShaderFormatsV1 (initV1 false envNone resetV1)
        ShaderFormat.dxil = true ∧
      (initV1 false envNone resetV1).dxcompiler_dll = false ∧
      (initV1 false envNone resetV1).d3dcompiler_dll = false) ∧
    getSPIRVShaderFormatsV2 ⟨false, false⟩
      (initV2 ⟨false, false⟩ envNoSpvc resetV2) ShaderFormat.msl = false := by
  decide

/-- C6 (amended): after Init, the newer file's `GetSPIRVShaderFormats` always
reports SPIR-V, MSL and DXIL, and reports DXBC exactly when the legacy
compiler loaded; the older file (dynamic, non-Xbox build) always reports
SPIR-V, reports MSL exactly when the SPIRV-Cross library loaded, and reports
DXIL / DXBC exactly when SPIRV-Cross and, respectively, the HLSL compiler
(with the DXIL-signing library present) / the legacy compiler loaded. -/
theorem claim_C6_amended :
    (∀ (xbox : Bool) (env : LoaderEnv),
      getSPIRVShaderFormatsV1 (initV1 xbox env resetV1) ShaderFormat.spirv =
        true ∧
      getSPIRVShaderFormatsV1 (initV1 xbox env resetV1) ShaderFormat.msl =
        true ∧
      getSPIRVShaderFormatsV1 (initV1 xbox env resetV1) ShaderFormat.dxil =
        true ∧
      getSPIRVShaderFormatsV1 (initV1 xbox env resetV1) ShaderFormat.dxbc =
        (env.d3dLib && env.d3dFunc)) ∧
    (∀ env : LoaderEnv,
      getSPIRVShaderFormatsV2 ⟨false, false⟩ (initV2 ⟨false, false⟩ env
        resetV2) ShaderFormat.spirv = true ∧
      getSPIRVShaderFormatsV2 ⟨false, false⟩ (initV2 ⟨false, false⟩ env
        resetV2) ShaderFormat.msl = (env.spvcLib && env.spvcFuncs) ∧
      getSPIRVShaderFormatsV2 ⟨false, false⟩ (initV2 ⟨false, false⟩ env
        resetV2) ShaderFormat.dxil =
        ((env.spvcLib && env.spvcFuncs) &&
         (env.dxcLib && env.dxilLib && env.dxcFunc)) ∧
      getSPIRVShaderFormatsV2 ⟨false, false⟩ (initV2 ⟨false, false⟩ env
        resetV2) ShaderFormat.dxbc =
        ((env.spvcLib && env.spvcFuncs) && (env.d3dLib && env.d3dFunc))) := by
  constructor
  · intro xbox env
    obtain ⟨d1, d2, x1, x2, dl, s1, s2⟩ := env
    cases xbox <;> cases d1 <;> cases d2 <;> cases x1 <;> cases x2 <;>
      cases dl <;> cases s1 <;> cases s2 <;> decide
  · intro env
    obtain ⟨d1, d2, x1, x2, dl, s1, s2⟩ := env
    cases d1 <;> cases d2 <;> cases x1 <;> cases x2 <;> cases dl <;>
      cases s1 <;> cases s2 <;> decide

/-- The transpiler records exactly its own invocation. -/
theorem internalTranspile_trace (o : Ext) (b : Backend) (sm : Nat)
    (st : ShaderStage) (code : Bytes) (e : String) :
    (internalTranspileFromSPIRV o b sm st code e).2 =
      [Event.spvcCall b sm st code e] := rfl

/-- The DXC driver records exactly its own invocation. -/
theorem internalCompileUsingDXC_trace (o : Ext) (source e : String)
    (st : ShaderStage) (b : Bool) :
    (internalCompileUsingDXC o source e st b).2 =
      [Event.dxcCall source e st b] := rfl

/-- The legacy-compiler driver records exactly its own invocation. -/
theorem internalCompileDXBC_trace (o : Ext) (source e p : String) :
    (internalCompileDXBC o source e p).2 = [Event.fxcCall source e p] := rfl

/-- The public HLSL transpile wrapper records exactly the transpiler
invocation. -/
theorem transpileHLSLFromSPIRV_trace (o : Ext) (code : Bytes) (e : String)
    (st : ShaderStage) :
    (transpileHLSLFromSPIRV o code e st).2 =
      [Event.spvcCall Backend.hlsl 60 st code e] := by
  unfold transpileHLSLFromSPIRV
  cases h : internalTranspileFromSPIRV o Backend.hlsl 60 st code e with
  | mk a tr =>
    have htr : tr = [Event.spvcCall Backend.hlsl 60 st code e] := by
      have h2 := internalTranspile_trace o Backend.hlsl 60 st code e
      rw [h] at h2
      exact h2
    subst htr
    cases a <;> rfl

/-- When the transpiler succeeds, the context's fields are the external
compile output and the cleansed entrypoint. -/
theorem internalTranspile_ok_parts (o : Ext) (b : Backend) (sm : Nat)
    (st : ShaderStage) (code : Bytes) (e : String)
    (ctx : SPIRVTranspileContext)
    (h : (internalTranspileFromSPIRV o b sm st code e).1 = Out.ok ctx) :
    ∃ m, o.parse code = some m ∧
      o.compileOut b sm st m = some ctx.translated_source ∧
      ctx.cleansed_entrypoint = o.cleanse b st e := by
  unfold internalTranspileFromSPIRV at h
  dsimp only at h
  split at h
  · exact absurd h (by simp)
  · rename_i m hp
    split at h
    · exact absurd h (by simp)
    · split at h
      · exact absurd h (by simp)
      · rename_i src hsrc
        refine ⟨m, hp, ?_, ?_⟩
        · cases h
          exact hsrc
        · cases h
          rfl

/-- Every backend invocation in `CompileDXILFromHLSL` — the DXC front-end
compile, the transpile, and the final DXC compile after the round-trip —
receives the caller's original entrypoint. -/
theorem compileDXILFromHLSL_entries (o : Ext) (src e : String)
    (st : ShaderStage) :
    ∀ ev ∈ (compileDXILFromHLSL o src e st).2, ev.entryArg = e := by
  unfold compileDXILFromHLSL
  cases h1 : compileSPIRVFromHLSL o src e st with
  | mk r1 t1 =>
    have ht1 : t1 = [Event.dxcCall src e st true] := by
      have h2 := internalCompileUsingDXC_trace o src e st true
      rw [show compileSPIRVFromHLSL o src e st =
        internalCompileUsingDXC o src e st true from rfl] at h1
      rw [h1] at h2
      exact h2
    subst ht1
    cases r1 with
    | ok spirv =>
      dsimp only
      cases h2 : transpileHLSLFromSPIRV o spirv e st with
      | mk r2 t2 =>
        have ht2 : t2 = [Event.spvcCall Backend.hlsl 60 st spirv e] := by
          have h3 := transpileHLSLFromSPIRV_trace o spirv e st
          rw [h2] at h3
          exact h3
        subst ht2
        cases r2 with
        | ok ts =>
          intro ev hev
          simp [internalCompileUsingDXC] at hev
          rcases hev with rfl | rfl | rfl <;> rfl
        | fail =>
          intro ev hev
          simp at hev
          rcases hev with rfl | rfl <;> rfl
        | crash =>
          intro ev hev
          simp at hev
          rcases hev with rfl | rfl <;> rfl
    | fail =>
      intro ev hev
      simp at hev
      subst hev
      rfl
    | crash =>
      intro ev hev
      simp at hev
      subst hev
      rfl

/-- Every backend invocation in `INTERNAL_CompileDXBCFromHLSL` — with or
without the round-trip — receives the caller's original entrypoint. -/
theorem internalCompileDXBCFromHLSL_entries (o : Ext) (src e : String)
    (st : ShaderStage) (rt : Bool) :
    ∀ ev ∈ (internalCompileDXBCFromHLSL o src e st rt).2,
      ev.entryArg = e := by
  cases rt with
  | false =>
    intro ev hev
    simp [internalCompileDXBCFromHLSL, internalCompileDXBC] at hev
    subst hev
    rfl
  | true =>
    unfold internalCompileDXBCFromHLSL
    cases h1 : compileSPIRVFromHLSL o src e st with
    | mk r1 t1 =>
      have ht1 : t1 = [Event.dxcCall src e st true] := by
        have h2 := internalCompileUsingDXC_trace o src e st true
        rw [show compileSPIRVFromHLSL o src e st =
          internalCompileUsingDXC o src e st true from rfl] at h1
        rw [h1] at h2
        exact h2
      subst ht1
      cases r1 with
      | ok spirv =>
        dsimp only
        cases h2 : transpileHLSLFromSPIRV o spirv e st with
        | mk r2 t2 =>
          have ht2 : t2 = [Event.spvcCall Backend.hlsl 60 st spirv e] := by
            have h3 := transpileHLSLFromSPIRV_trace o spirv e st
            rw [h2] at h3
            exact h3
          subst ht2
          cases r2 with
          | ok ts =>
            intro ev hev
            simp [internalCompileDXBC] at hev
            rcases hev with rfl | rfl | rfl <;> rfl
          | fail =>
            intro ev hev
            simp at hev
            rcases hev with rfl | rfl <;> rfl
          | crash =>
            intro ev hev
            simp at hev
            rcases hev with rfl | rfl <;> rfl
      | fail =>
        intro ev hev
        simp at hev
        subst hev
        rfl
      | crash =>
        intro ev hev
        simp at hev
        subst hev
        rfl

/-- Every downstream backend compilation reached from
`CompileDXBCFromSPIRV` receives the transpiler's cleansed entrypoint. -/
theorem compileDXBCFromSPIRV_entries (o : Ext) (code : Bytes) (e : String)
    (st : ShaderStage) :
    ∀ ev ∈ (compileDXBCFromSPIRV o code e st).2,
      ev.isDownstreamCompile = true →
      ev.entryArg = o.cleanse Backend.hlsl st e := by
  unfold compileDXBCFromSPIRV
  cases h1 : internalTranspileFromSPIRV o Backend.hlsl 51 st code e with
  | mk r1 t1 =>
    have ht1 : t1 = [Event.spvcCall Backend.hlsl 51 st code e] := by
      have h2 := internalTranspile_trace o Backend.hlsl 51 st code e
      rw [h1] at h2
      exact h2
    subst ht1
    cases r1 with
    | ok ctx =>
      dsimp only
      obtain ⟨m, -, -, hcl⟩ := internalTranspile_ok_parts o Backend.hlsl 51 st
        code e ctx (by rw [h1])
      cases h2 : internalCompileDXBCFromHLSL o ctx.translated_source
          ctx.cleansed_entrypoint st false with
      | mk r2 t2 =>
        have hin := internalCompileDXBCFromHLSL_entries o ctx.translated_source
          ctx.cleansed_entrypoint st false
        rw [h2] at hin
        intro ev hev hd
        simp at hev
        rcases hev with rfl | hev2
        · simp [Event.isDownstreamCompile] at hd
        · rw [← hcl]
          exact hin ev hev2
    | fail =>
      dsimp only
      intro ev hev hd
      simp at hev
      subst hev
      simp [Event.isDownstreamCompile] at hd
    | crash =>
      dsimp only
      intro ev hev hd
      simp at hev
      subst hev
      simp [Event.isDownstreamCompile] at hd

/-- Every downstream backend compilation reached from
`CompileDXILFromSPIRV` receives the transpiler's cleansed entrypoint. -/
theorem compileDXILFromSPIRV_entries (o : Ext) (code : Bytes) (e : String)
    (st : ShaderStage) :
    ∀ ev ∈ (compileDXILFromSPIRV o code e st).2,
      ev.isDownstreamCompile = true →
      ev.entryArg = o.cleanse Backend.hlsl st e := by
  unfold compileDXILFromSPIRV
  cases h1 : internalTranspileFromSPIRV o Backend.hlsl 60 st code e with
  | mk r1 t1 =>
    have ht1 : t1 = [Event.spvcCall Backend.hlsl 60 st code e] := by
      have h2 := internalTranspile_trace o Backend.hlsl 60 st code e
      rw [h1] at h2
      exact h2
    subst ht1
    cases r1 with
    | ok ctx =>
      dsimp only
      obtain ⟨m, -, -, hcl⟩ := internalTranspile_ok_parts o Backend.hlsl 60 st
        code e ctx (by rw [h1])
      cases h2 : compileDXILFromHLSL o ctx.translated_source
          ctx.cleansed_entrypoint st with
      | mk r2 t2 =>
        have hin := compileDXILFromHLSL_entries o ctx.translated_source
          ctx.cleansed_entrypoint st
        rw [h2] at hin
        intro ev hev hd
        simp at hev
        rcases hev with rfl | hev2
        · simp [Event.isDownstreamCompile] at hd
        · rw [← hcl]
          exact hin ev hev2
    | fail =>
      dsimp only
      intro ev hev hd
      simp at hev
      subst hev
      simp [Event.isDownstreamCompile] at hd
    | crash =>
      dsimp only
      intro ev hev hd
      simp at hev
      subst hev
      simp [Event.isDownstreamCompile] at hd

/-- Every downstream backend compilation reached from the runtime
shader-construction path receives the transpiler's cleansed entrypoint, for
the DXBC and DXIL targets. -/
theorem internalCompileFromSPIRV_entries (o : Ext) (code : Bytes) (e : String)
    (st : ShaderStage) (fmt : ShaderFormat)
    (hfmt : fmt = ShaderFormat.dxbc ∨ fmt = ShaderFormat.dxil) :
    ∀ ev ∈ (internalCompileFromSPIRV o code e st fmt).2,
      ev.isDownstreamCompile = true →
      ev.entryArg = o.cleanse Backend.hlsl st e := by
  rcases hfmt with rfl | rfl
  · unfold internalCompileFromSPIRV
    simp only [show (ShaderFormat.dxbc == ShaderFormat.msl) = false from rfl,
      show (ShaderFormat.dxbc == ShaderFormat.dxbc) = true from rfl,
      Bool.false_eq_true, if_false, if_true]
    cases h1 : internalTranspileFromSPIRV o Backend.hlsl 51 st code e with
    | mk r1 t1 =>
      have ht1 : t1 = [Event.spvcCall Backend.hlsl 51 st code e] := by
        have h2 := internalTranspile_trace o Backend.hlsl 51 st code e
        rw [h1] at h2
        exact h2
      subst ht1
      cases r1 with
      | ok ctx =>
        obtain ⟨m, -, -, hcl⟩ := internalTranspile_ok_parts o Backend.hlsl 51
          st code e ctx (by rw [h1])
        have hin := internalCompileDXBCFromHLSL_entries o
          ctx.translated_source ctx.cleansed_entrypoint st false
        intro ev hev hd
        simp at hev
        rcases hev with rfl | hev2
        · simp [Event.isDownstreamCompile] at hd
        · rw [← hcl]
          exact hin ev hev2
      | fail =>
        intro ev hev hd
        simp at hev
        subst hev
        simp [Event.isDownstreamCompile] at hd
      | crash =>
        intro ev hev hd
        simp at hev
        subst hev
        simp [Event.isDownstreamCompile] at hd
  · unfold internalCompileFromSPIRV
    simp only [show (ShaderFormat.dxil == ShaderFormat.msl) = false from rfl,
      show (ShaderFormat.dxil == ShaderFormat.dxbc) = false from rfl,
      show (ShaderFormat.dxil == ShaderFormat.dxil) = true from rfl,
      Bool.false_eq_true, if_false, if_true]
    cases h1 : internalTranspileFromSPIRV o Backend.hlsl 60 st code e with
    | mk r1 t1 =>
      have ht1 : t1 = [Event.spvcCall Backend.hlsl 60 st code e] := by
        have h2 := internalTranspile_trace o Backend.hlsl 60 st code e
        rw [h1] at h2
        exact h2
      subst ht1
      cases r1 with
      | ok ctx =>
        obtain ⟨m, -, -, hcl⟩ := internalTranspile_ok_parts o Backend.hlsl 60
          st code e ctx (by rw [h1])
        have hin := compileDXILFromHLSL_entries o ctx.translated_source
          ctx.cleansed_entrypoint st
        intro ev hev hd
        simp at hev
        rcases hev with rfl | hev2
        · simp [Event.isDownstreamCompile] at hd
        · rw [← hcl]
          exact hin ev hev2
      | fail =>
        intro ev hev hd
        simp at hev
        subst hev
        simp [Event.isDownstreamCompile] at hd
      | crash =>
        intro ev hev hd
        simp at hev
        subst hev
        simp [Event.isDownstreamCompile] at hd

/-- C5 (counterexample): in `CompileDXILFromHLSL`, the final DXC compile after
the round-trip receives the caller's original entrypoint "main", not the
transpiler's cleansed entrypoint "main0" — under an external-backend behaviour
where cleansing appends "0", the downstream compile is invoked with the
original name. -/
theorem claim_C5_counterexample :
    (compileDXILFromHLSL extOracle "S" "main" ShaderStage.vertex).2 =
      [Event.dxcCall "S" "main" ShaderStage.vertex true,
       Event.spvcCall Backend.hlsl 60 ShaderStage.vertex [7] "main",
       Event.dxcCall "XSRC" "main" ShaderStage.vertex false] ∧
    extOracle.cleanse Backend.hlsl ShaderStage.vertex "main" = "main0" ∧
    ("main" : String) ≠ "main0" := by
  refine ⟨rfl, rfl, by decide⟩

/-- C5 (amended): the SPIR-V→DXBC and SPIR-V→DXIL chains, and the runtime
shader-construction path for the DXBC and DXIL targets, pass the transpiler's
cleansed entrypoint to every downstream backend compilation; the HLSL→DXIL
forced round-trip and the HLSL→DXBC round-trip instead pass the caller's
original entrypoint to every backend invocation, including the final compile
after the round-trip (their transpile step does not expose the cleansed
name). -/
theorem claim_C5_amended (o : Ext) (code : Bytes) (src e : String)
    (st : ShaderStage) :
    (∀ ev ∈ (compileDXBCFromSPIRV o code e st).2,
      ev.isDownstreamCompile = true →
      ev.entryArg = o.cleanse Backend.hlsl st e) ∧
    (∀ ev ∈ (compileDXILFromSPIRV o code e st).2,
      ev.isDownstreamCompile = true →
      ev.entryArg = o.cleanse Backend.hlsl st e) ∧
    (∀ fmt, fmt = ShaderFormat.dxbc ∨ fmt = ShaderFormat.dxil →
      ∀ ev ∈ (internalCompileFromSPIRV o code e st fmt).2,
        ev.isDownstreamCompile = true →
        ev.entryArg = o.cleanse Backend.hlsl st e) ∧
    (∀ ev ∈ (compileDXILFromHLSL o src e st).2, ev.entryArg = e) ∧
    (∀ ev ∈ (compileDXBCFromHLSL o src e st).2, ev.entryArg = e) :=
  ⟨compileDXBCFromSPIRV_entries o code e st,
   compileDXILFromSPIRV_entries o code e st,
   fun fmt hfmt => internalCompileFromSPIRV_entries o code e st fmt hfmt,
   compileDXILFromHLSL_entries o src e st,
   fun ev hev => internalCompileDXBCFromHLSL_entries o src e st true ev hev⟩

/-- Closed witness for the amended C5: in the concrete SPIR-V→DXBC chain the
legacy compiler is invoked with the cleansed entrypoint "main0". -/
theorem claim_C5_witness :
    (Event.fxcCall "XSRC" "main0" "vs_5_1").entryArg =
      extOracle.cleanse Backend.hlsl ShaderStage.vertex "main" :=
  (claim_C5_amended extOracle [] "S" "main" ShaderStage.vertex).1
    (Event.fxcCall "XSRC" "main0" "vs_5_1") (by decide) (by decide)

/-- C8: DXBC production routes through the SPIR-V round-trip exactly when the
original input is HLSL: the public `CompileDXBCFromHLSL` enables the
round-trip, and whenever it reaches the legacy compiler its trace is exactly
DXC-to-SPIR-V, transpile-back-to-HLSL, legacy compile of the transpiled
source; `CompileDXBCFromSPIRV` disables the round-trip, never invokes DXC, and
whenever it reaches the legacy compiler it hands it the transpiled HLSL
directly. -/
theorem claim_C8 (o : Ext) (src : String) (code : Bytes) (e : String)
    (st : ShaderStage) :
    compileDXBCFromHLSL o src e st =
      internalCompileDXBCFromHLSL o src e st true ∧
    (∀ ev ∈ (compileDXBCFromHLSL o src e st).2, ev.isFxc = true →
      ∃ spirv ts, (compileDXBCFromHLSL o src e st).2 =
        [Event.dxcCall src e st true,
         Event.spvcCall Backend.hlsl 60 st spirv e,
         Event.fxcCall ts e (profileFor st)]) ∧
    (∀ ev ∈ (compileDXBCFromSPIRV o code e st).2, ev.isFxc = true →
      ∃ m ts, o.parse code = some m ∧
        o.compileOut Backend.hlsl 51 st m = some ts ∧
        (compileDXBCFromSPIRV o code e st).2 =
          [Event.spvcCall Backend.hlsl 51 st code e,
           Event.fxcCall ts (o.cleanse Backend.hlsl st e) (profileFor st)]) ∧
    (∀ ev ∈ (compileDXBCFromSPIRV o code e st).2, ev.isDxc = false) := by
  refine ⟨rfl, ?_, ?_, ?_⟩
  · unfold compileDXBCFromHLSL internalCompileDXBCFromHLSL
    cases h1 : compileSPIRVFromHLSL o src e st with
    | mk r1 t1 =>
      have ht1 : t1 = [Event.dxcCall src e st true] := by
        have h2 := internalCompileUsingDXC_trace o src e st true
        rw [show compileSPIRVFromHLSL o src e st =
          internalCompileUsingDXC o src e st true from rfl] at h1
        rw [h1] at h2
        exact h2
      subst ht1
      cases r1 with
      | ok spirv =>
        dsimp only
        cases h2 : transpileHLSLFromSPIRV o spirv e st with
        | mk r2 t2 =>
          have ht2 : t2 = [Event.spvcCall Backend.hlsl 60 st spirv e] := by
            have h3 := transpileHLSLFromSPIRV_trace o spirv e st
            rw [h2] at h3
            exact h3
          subst ht2
          cases r2 with
          | ok ts =>
            intro ev hev hfx
            exact ⟨spirv, ts, by simp [internalCompileDXBC]⟩
          | fail =>
            intro ev hev hfx
            simp at hev
            rcases hev with rfl | rfl <;> simp [Event.isFxc] at hfx
          | crash =>
            intro ev hev hfx
            simp at hev
            rcases hev with rfl | rfl <;> simp [Event.isFxc] at hfx
      | fail =>
        intro ev hev hfx
        simp at hev
        subst hev
        simp [Event.isFxc] at hfx
      | crash =>
        intro ev hev hfx
        simp at hev
        subst hev
        simp [Event.isFxc] at hfx
  · unfold compileDXBCFromSPIRV
    cases h1 : internalTranspileFromSPIRV o Backend.hlsl 51 st code e with
    | mk r1 t1 =>
      have ht1 : t1 = [Event.spvcCall Backend.hlsl 51 st code e] := by
        have h2 := internalTranspile_trace o Backend.hlsl 51 st code e
        rw [h1] at h2
        exact h2
      subst ht1
      cases r1 with
      | ok ctx =>
        dsimp only
        obtain ⟨m, hparse, hcomp, hcl⟩ := internalTranspile_ok_parts o
          Backend.hlsl 51 st code e ctx (by rw [h1])
        intro ev hev hfx
        refine ⟨m, ctx.translated_source, hparse, hcomp, ?_⟩
        simp [internalCompileDXBCFromHLSL, internalCompileDXBC, hcl]
      | fail =>
        intro ev hev hfx
        simp at hev
        subst hev
        simp [Event.isFxc] at hfx
      | crash =>
        intro ev hev hfx
        simp at hev
        subst hev
        simp [Event.isFxc] at hfx
  · unfold compileDXBCFromSPIRV
    cases h1 : internalTranspileFromSPIRV o Backend.hlsl 51 st code e with
    | mk r1 t1 =>
      have ht1 : t1 = [Event.spvcCall Backend.hlsl 51 st code e] := by
        have h2 := internalTranspile_trace o Backend.hlsl 51 st code e
        rw [h1] at h2
        exact h2
      subst ht1
      cases r1 with
      | ok ctx =>
        dsimp only
        intro ev hev
        simp [internalCompileDXBCFromHLSL, internalCompileDXBC] at hev
        rcases hev with rfl | rfl <;> rfl
      | fail =>
        intro ev hev
        simp at hev
        subst hev
        rfl
      | crash =>
        intro ev hev
        simp at hev
        subst hev
        rfl

/-- Closed witness for C8: the concrete SPIR-V→DXBC chain reaches the legacy
compiler with the transpiled source and the cleansed entrypoint, with no DXC
invocation. -/
theorem claim_C8_witness :
    ∃ m ts, extOracle.parse [] = some m ∧
      extOracle.compileOut Backend.hlsl 51 ShaderStage.vertex m = some ts ∧
      (compileDXBCFromSPIRV extOracle [] "main" ShaderStage.vertex).2 =
        [Event.spvcCall Backend.hlsl 51 ShaderStage.vertex [] "main",
         Event.fxcCall ts
           (extOracle.cleanse Backend.hlsl ShaderStage.vertex "main")
           (profileFor ShaderStage.vertex)] :=
  (claim_C8 extOracle "S" [] "main" ShaderStage.vertex).2.2.1
    (Event.fxcCall "XSRC" "main0" "vs_5_1") (by decide) (by decide)

end SDLShaderCross
